import Mathlib

/-!
# Verification of stellar-etl's operation transform

Shallow embedding of `internal/transform/operation.go` (the per-operation
detail-extraction engine) together with the small fragments of its
collaborators that the transform observes.  Machine integers are modelled as
`Int`/`Nat`; fallible Go calls return `Except`; Go `nil` slices are
`Option (List _) = none`, non-nil slices are `some`.
-/

namespace StellarEtl

/-- A Stellar account id (the raw key, abstracted to a natural number). -/
abbrev AccountId := Nat

/-- `AccountId.Address()` renders the key to its canonical strkey string. -/
def accountAddress (a : AccountId) : String := "G" ++ toString a

/-- An `xdr.MuxedAccount`: the underlying account id plus whether its
canonical address can be rendered (the collaborator
`GetAccountAddressFromMuxedAccount` can fail on malformed keys). -/
structure MuxedAccount where
  accId : AccountId
  valid : Bool
deriving Repr, DecidableEq

/-- `MuxedAccount.ToAccountId()` drops the multiplexing id. -/
def MuxedAccount.toAccountId (m : MuxedAccount) : AccountId := m.accId

/-- Errors produced by the transform; each constructor corresponds to one
`fmt.Errorf`/error-return site of `operation.go` (plus `indexOutOfBounds`,
which models the Go runtime panic of an out-of-bounds slice index). -/
inductive OpError
  | addressDecode (msg : String)
  | negativeType (tag : Int)
  | missingResults
  | indexOutOfBounds
  | schemaMismatch (idx : Int)
  | missingResultBody (idx : Int)
  | missingStrictReceiveResult (idx : Int)
  | missingStrictSendResult (idx : Int)
  | assetExtract (msg : String)
  | invalidBalanceId (idx : Int)
  | sponsorAddress (idx : Int)
  | claimableBalanceKey (msg : String)
  | unsupportedOperationType (tag : Int)
deriving Repr, DecidableEq

/-- Modelled from the spec: `GetAccountAddressFromMuxedAccount` lives in
`internal/utils`, which is not under `src/`.  §4.1: the resolver "fails with
`AddressDecodeError` if the resolved account cannot render to its canonical
address string"; otherwise it returns the canonical address. -/
def GetAccountAddressFromMuxedAccount (m : MuxedAccount) : Except OpError String :=
  if m.valid then .ok (accountAddress m.accId)
  else .error (.addressDecode "could not decode address")

/-- Modelled from the spec: `ConvertStroopValueToReal` lives in
`internal/utils`, which is not under `src/`.  §4.5: "native amounts are
integers scaled by 10^7 (stroops); converting to decimal divides by 10^7
using exact decimal/rational arithmetic". -/
def ConvertStroopValueToReal (input : Int) : Rat :=
  (input : Rat) / 10000000

/-- An `xdr.Asset`.  The fourth constructor stands for a union whose type
tag is outside the three asset arms (e.g. a corrupted discriminant), on
which `Asset.Extract` fails. -/
inductive Asset
  | native
  | alphanum4 (code : String) (issuer : AccountId)
  | alphanum12 (code : String) (issuer : AccountId)
  | invalid (tag : Int)
deriving Repr, DecidableEq

/-- `Asset.Extract(&assetType, &code, &issuer)` of the stellar/go xdr
package: classifies native vs alphanum4 vs alphanum12 (issuer rendered to
its address), failing on an unknown asset type. -/
def Asset.extract : Asset → Except String (String × String × String)
  | .native => .ok ("native", "", "")
  | .alphanum4 code issuer => .ok ("credit_alphanum4", code, accountAddress issuer)
  | .alphanum12 code issuer => .ok ("credit_alphanum12", code, accountAddress issuer)
  | .invalid tag => .error ("unknown asset type: " ++ toString tag)

/-- Whether the asset's type tag is `AssetTypeAssetTypeNative`. -/
def Asset.isNative : Asset → Bool
  | .native => true
  | _ => false

/-- `Asset.StringCanonical()`: canonical string form of an asset. -/
def Asset.stringCanonical : Asset → String
  | .native => "native"
  | .alphanum4 code issuer => code ++ ":" ++ accountAddress issuer
  | .alphanum12 code issuer => code ++ ":" ++ accountAddress issuer
  | .invalid tag => "invalid:" ++ toString tag

/-- `xdr.TrustLineFlags` bit tests (flag values 1, 2, 4). -/
def isAuthorized (f : Nat) : Bool := f &&& 1 ≠ 0
def isAuthorizedToMaintainLiabilitiesFlag (f : Nat) : Bool := f &&& 2 ≠ 0
def isClawbackEnabledFlag (f : Nat) : Bool := f &&& 4 ≠ 0

/-- A claim predicate: an opaque condition tree carried through unmodified
(never interpreted by the transform). -/
structure ClaimPredicate where
  raw : Nat
deriving Repr, DecidableEq

/-- `xdr.ClaimantV0`. -/
structure ClaimantV0 where
  destination : AccountId
  predicate : ClaimPredicate
deriving Repr, DecidableEq

/-- Output claimant record. -/
structure Claimant where
  Destination : String
  Predicate : ClaimPredicate
deriving Repr, DecidableEq

/-- A claimable-balance id: `some hex` when `xdr.MarshalHex` succeeds on the
binary id, `none` when marshalling fails. -/
abbrev BalanceId := Option String

/-- `xdr.MarshalHex` of a balance id. -/
def marshalHexBalanceId (b : BalanceId) : Except String String :=
  match b with
  | some hex => .ok hex
  | none => .error "marshal failure"

/-- An `xdr.LedgerKey` as inspected by `addLedgerKeyToDetails`; `other`
stands for key kinds outside the five handled cases (the Go switch has no
default, leaving the details untouched for them). -/
inductive LedgerKey
  | account (accountId : AccountId)
  | claimableBalance (balanceId : BalanceId)
  | data (accountId : AccountId) (dataName : String)
  | offer (offerId : Int)
  | trustline (accountId : AccountId) (asset : Asset)
  | other
deriving Repr, DecidableEq

/-- `xdr.RevokeSponsorshipOp`: ledger-entry sub-kind or signer sub-kind. -/
inductive RevokeSponsorshipArg
  | ledgerEntry (key : LedgerKey)
  | signer (accountId : AccountId) (signerKey : String)
deriving Repr, DecidableEq

/-- `xdr.AllowTrustOpAsset`: a bare 4- or 12-character asset code. -/
inductive AllowTrustAsset
  | code4 (code : String)
  | code12 (code : String)
deriving Repr, DecidableEq

/-- `AllowTrustOpAsset.ToAsset(issuer)`: rebuilds a full asset from the
legacy code with the given issuer. -/
def AllowTrustAsset.toAsset (a : AllowTrustAsset) (issuer : AccountId) : Asset :=
  match a with
  | .code4 code => .alphanum4 code issuer
  | .code12 code => .alphanum12 code issuer

/-- `xdr.OperationBody`: the tagged union of operation payloads.  The
constructors are listed in the wire-format tag order (0–21); `other` holds
any tag outside the handled set (including the negative tags the transform
checks for defensively). -/
inductive OperationBody
  | createAccount (destination : AccountId) (startingBalance : Int)
  | payment (destination : MuxedAccount) (asset : Asset) (amount : Int)
  | pathPaymentStrictReceive (sendAsset : Asset) (sendMax : Int)
      (destination : MuxedAccount) (destAsset : Asset) (destAmount : Int)
      (path : List Asset)
  | manageSellOffer (selling : Asset) (buying : Asset) (amount : Int)
      (priceN : Int) (priceD : Int) (offerId : Int)
  | createPassiveSellOffer (selling : Asset) (buying : Asset) (amount : Int)
      (priceN : Int) (priceD : Int)
  | setOptions (inflationDest : Option AccountId) (clearFlags : Option Nat)
      (setFlags : Option Nat) (masterWeight : Option Nat)
      (lowThreshold : Option Nat) (medThreshold : Option Nat)
      (highThreshold : Option Nat) (homeDomain : Option String)
      (signer : Option (String × Nat))
  | changeTrust (line : Asset) (limit : Int)
  | allowTrust (trustor : AccountId) (asset : AllowTrustAsset) (authorize : Nat)
  | accountMerge (destination : MuxedAccount)
  | inflation
  | manageData (dataName : String) (dataValue : Option (List Nat))
  | bumpSequence (bumpTo : Int)
  | manageBuyOffer (selling : Asset) (buying : Asset) (buyAmount : Int)
      (priceN : Int) (priceD : Int) (offerId : Int)
  | pathPaymentStrictSend (sendAsset : Asset) (sendAmount : Int)
      (destination : MuxedAccount) (destAsset : Asset) (destMin : Int)
      (path : List Asset)
  | createClaimableBalance (asset : Asset) (amount : Int)
      (claimants : List ClaimantV0)
  | claimClaimableBalance (balanceId : BalanceId)
  | beginSponsoringFutureReserves (sponsoredId : AccountId)
  | endSponsoringFutureReserves
  | revokeSponsorship (arg : RevokeSponsorshipArg)
  | clawback (asset : Asset) (fromAcc : MuxedAccount) (amount : Int)
  | clawbackClaimableBalance (balanceId : BalanceId)
  | setTrustLineFlags (trustor : AccountId) (asset : Asset)
      (clearFlags : Nat) (setFlags : Nat)
  | other (tag : Int)
deriving Repr, DecidableEq

/-- `operation.Body.Type`: the wire-format type tag of the payload. -/
def OperationBody.typeTag : OperationBody → Int
  | .createAccount .. => 0
  | .payment .. => 1
  | .pathPaymentStrictReceive .. => 2
  | .manageSellOffer .. => 3
  | .createPassiveSellOffer .. => 4
  | .setOptions .. => 5
  | .changeTrust .. => 6
  | .allowTrust .. => 7
  | .accountMerge .. => 8
  | .inflation => 9
  | .manageData .. => 10
  | .bumpSequence .. => 11
  | .manageBuyOffer .. => 12
  | .pathPaymentStrictSend .. => 13
  | .createClaimableBalance .. => 14
  | .claimClaimableBalance .. => 15
  | .beginSponsoringFutureReserves .. => 16
  | .endSponsoringFutureReserves => 17
  | .revokeSponsorship .. => 18
  | .clawback .. => 19
  | .clawbackClaimableBalance .. => 20
  | .setTrustLineFlags .. => 21
  | .other tag => tag

/-- `Body.GetBeginSponsoringFutureReservesOp()`: the sponsored id when the
union holds a begin-sponsoring payload. -/
def OperationBody.getBeginSponsoringFutureReservesOp : OperationBody → Option AccountId
  | .beginSponsoringFutureReserves sponsoredId => some sponsoredId
  | _ => none

/-- An `xdr.Operation`: optional explicit source account plus body. -/
structure Operation where
  sourceAccount : Option MuxedAccount
  body : OperationBody
deriving Repr, DecidableEq

/-- The per-operation execution-result body (`OperationResult.Tr`),
restricted to the arms the transform reads; `otherTr` stands for every
other result kind. -/
inductive OperationResultTr
  | pathPaymentStrictReceiveResult (sendAmount : Int)
  | pathPaymentStrictSendResult (destAmount : Int)
  | otherTr
deriving Repr, DecidableEq

/-- `resultBody.GetPathPaymentStrictReceiveResult()` followed by
`result.SendAmount()`. -/
def OperationResultTr.getPathPaymentStrictReceiveResult :
    OperationResultTr → Option Int
  | .pathPaymentStrictReceiveResult sendAmount => some sendAmount
  | _ => none

/-- `resultBody.GetPathPaymentStrictSendResult()` followed by
`result.DestAmount()`. -/
def OperationResultTr.getPathPaymentStrictSendResult :
    OperationResultTr → Option Int
  | .pathPaymentStrictSendResult destAmount => some destAmount
  | _ => none

/-- An `xdr.OperationResult`: `tr = none` models a result whose
`GetTr()` fails (result code other than `opINNER`). -/
structure OperationResult where
  tr : Option OperationResultTr
deriving Repr, DecidableEq

/-- The transaction result as observed by the transform:
`Result.Successful()` and `Result.OperationResults()` (the latter is `none`
when the result code carries no per-operation results). -/
structure TransactionResult where
  successful : Bool
  opResults : Option (List OperationResult)
deriving Repr, DecidableEq

/-- The transaction envelope as observed: top-level source account and the
ordered operation list. -/
structure TransactionEnvelope where
  sourceAccount : MuxedAccount
  operations : List Operation
deriving Repr, DecidableEq

/-- `ingest.LedgerTransaction`: index within the ledger, envelope, result. -/
structure LedgerTransaction where
  index : Nat
  envelope : TransactionEnvelope
  result : TransactionResult
deriving Repr, DecidableEq

/-- A path element of the output record. -/
structure Path where
  AssetType : String
  AssetIssuer : String
  AssetCode : String
deriving Repr, DecidableEq

/-- Exact rational price pair (Go type `Price`; renamed here because the
`Details` record also has a `Price` field). -/
structure PriceRational where
  Numerator : Int
  Denominator : Int
deriving Repr, DecidableEq

/-- `big.Rat(n, d).FloatString(7)` followed by `strconv.ParseFloat`: the
rational rounded to 7 fractional digits, nearest with ties away from zero.
(The final float64 rounding of `ParseFloat` is not modelled; the value is
kept as the exact rounded rational.) -/
def parsedPriceApprox (n d : Int) : Rat :=
  if d = 0 then 0
  else
    let sign : Int := if (n < 0) ≠ (d < 0) then -1 else 1
    let a := n.natAbs * 10000000
    let b := d.natAbs
    let q := (2 * a + b) / (2 * b)
    (sign * (q : Int) : Rat) / 10000000

/-- `amount.String` of the stellar/go amount package: stroops rendered as a
decimal string with 7 fractional digits. -/
def amountString (i : Int) : String :=
  let n := i.natAbs
  let whole := n / 10000000
  let frac := n % 10000000
  let fracDigits := toString frac
  let fracStr := String.mk (List.replicate (7 - fracDigits.length) '0') ++ fracDigits
  (if i < 0 then "-" else "") ++ toString whole ++ "." ++ fracStr

/-- The standard base64 alphabet, indexed 0–63. -/
def base64Char (n : Nat) : Char :=
  (("ABCDEFGHIJKLMNOPQRSTUVWXYZabcdefghijklmnopqrstuvwxyz0123456789+/").toList.getD n '=')

/-- `base64.StdEncoding.EncodeToString` over a byte list. -/
def base64Encode : List Nat → String
  | [] => ""
  | [a] =>
      String.mk [base64Char (a / 4), base64Char ((a % 4) * 16), '=', '=']
  | [a, b] =>
      String.mk [base64Char (a / 4), base64Char ((a % 4) * 16 + b / 16),
        base64Char ((b % 16) * 4), '=']
  | a :: b :: c :: rest =>
      String.mk [base64Char (a / 4), base64Char ((a % 4) * 16 + b / 16),
        base64Char ((b % 16) * 4 + c / 64), base64Char (c % 64)] ++
      base64Encode rest

/-- The flat output `Details` record.  Go `nil`-able slices are `Option`
lists (`none` = nil); all other fields carry their Go zero values by
default. -/
structure Details where
  Funder : String := ""
  Account : String := ""
  StartingBalance : Rat := 0
  From : String := ""
  To : String := ""
  Amount : Rat := 0
  SourceMax : Rat := 0
  SourceAmount : Rat := 0
  DestinationMin : String := ""
  AssetType : String := ""
  AssetCode : String := ""
  AssetIssuer : String := ""
  SourceAssetType : String := ""
  SourceAssetCode : String := ""
  SourceAssetIssuer : String := ""
  BuyingAssetType : String := ""
  BuyingAssetCode : String := ""
  BuyingAssetIssuer : String := ""
  SellingAssetType : String := ""
  SellingAssetCode : String := ""
  SellingAssetIssuer : String := ""
  OfferID : Int := 0
  Price : Rat := 0
  PriceR : PriceRational := { Numerator := 0, Denominator := 0 }
  InflationDest : String := ""
  SetFlags : Option (List Int) := none
  SetFlagsString : Option (List String) := none
  ClearFlags : Option (List Int) := none
  ClearFlagsString : Option (List String) := none
  MasterKeyWeight : Nat := 0
  LowThreshold : Nat := 0
  MedThreshold : Nat := 0
  HighThreshold : Nat := 0
  HomeDomain : String := ""
  SignerKey : String := ""
  SignerWeight : Nat := 0
  Trustor : String := ""
  Trustee : String := ""
  Limit : Rat := 0
  Authorize : Bool := false
  Into : String := ""
  Name : String := ""
  Value : String := ""
  BumpTo : String := ""
  Claimants : Option (List Claimant) := none
  BalanceID : String := ""
  SponsoredID : String := ""
  BeginSponsor : String := ""
  SignerAccountID : String := ""
  AccountID : String := ""
  ClaimableBalanceID : String := ""
  DataAccountID : String := ""
  DataName : String := ""
  TrustlineAccountID : String := ""
  TrustlineAsset : String := ""
  Path : Option (List Path) := none
deriving Repr, DecidableEq

/-- The output row `OperationOutput` (field `Type` renamed `type` for Lean). -/
structure OperationOutput where
  SourceAccount : String
  type : Int
  ApplicationOrder : Int
  TransactionID : Int
  OperationID : Int
  OperationDetails : Details
deriving Repr, DecidableEq

/-- `SponsorshipOutput`: the matched begin-sponsoring operation and its
index, produced only inside the lookback resolver. -/
structure SponsorshipOutput where
  Operation : Operation
  OperationIndex : Nat
deriving Repr, DecidableEq

/-- Modelled from the spec: the identifier encoding lives in
`internal/toid`, which is not under `src/`.  §3: "a 64-bit value packing
(ledger_sequence, transaction_index_in_ledger, operation_index_in_tx + 1);
numeric ordering of these ids equals ledger application order" — the
packing gives the ledger sequence the high 32 bits, the transaction index
the next 20 and the operation index the low 12. -/
def toidToInt64 (ledgerSeq : Int) (txIndex : Nat) (opIndex : Int) : Int :=
  ledgerSeq * 2 ^ 32 + (txIndex : Int) * 2 ^ 12 + opIndex

/-- `getOperationSourceAccount`: the operation's explicit source if
present, else the transaction envelope's top-level source. -/
def getOperationSourceAccount (operation : Operation)
    (transaction : LedgerTransaction) : MuxedAccount :=
  match operation.sourceAccount with
  | some sourceAccount => sourceAccount
  | none => transaction.envelope.sourceAccount

/-- `addAssetDetailsToOperationDetails`: extracts the asset triplet and
writes it into the slot selected by `pfx` ("buying" / "selling" /
"source" / default); code and issuer are written only for non-native
assets.  Fails exactly when `Asset.Extract` fails, leaving the details
untouched. -/
def addAssetDetailsToOperationDetails (operationDetails : Details)
    (asset : Asset) (pfx : String) : Except String Details :=
  match asset.extract with
  | .error e => .error e
  | .ok (assetType, code, issuer) =>
    match pfx with
    | "buying" =>
        .ok { operationDetails with
          BuyingAssetType := assetType
          BuyingAssetIssuer := if asset.isNative then operationDetails.BuyingAssetIssuer else issuer
          BuyingAssetCode := if asset.isNative then operationDetails.BuyingAssetCode else code }
    | "selling" =>
        .ok { operationDetails with
          SellingAssetType := assetType
          SellingAssetIssuer := if asset.isNative then operationDetails.SellingAssetIssuer else issuer
          SellingAssetCode := if asset.isNative then operationDetails.SellingAssetCode else code }
    | "source" =>
        .ok { operationDetails with
          SourceAssetType := assetType
          SourceAssetIssuer := if asset.isNative then operationDetails.SourceAssetIssuer else issuer
          SourceAssetCode := if asset.isNative then operationDetails.SourceAssetCode else code }
    | _ =>
        .ok { operationDetails with
          AssetType := assetType
          AssetIssuer := if asset.isNative then operationDetails.AssetIssuer else issuer
          AssetCode := if asset.isNative then operationDetails.AssetCode else code }

/-- A call of `addAssetDetailsToOperationDetails` whose error result is
discarded (the Go call sites that ignore the returned error): on failure
the details are left unchanged. -/
def addAssetDetailsDiscardingError (operationDetails : Details)
    (asset : Asset) (pfx : String) : Details :=
  match addAssetDetailsToOperationDetails operationDetails asset pfx with
  | .ok d => d
  | .error _ => operationDetails

/-- Go `append` on a nil-able slice: appending to nil allocates. -/
def goAppend {α : Type} (l : Option (List α)) (x : α) : Option (List α) :=
  some (l.getD [] ++ [x])

/-- `addTrustLineFlagToDetails`: tests the three trustline flag bits in
order (authorized, authorized_to_maintain_liabilities, clawback_enabled)
and stores the parallel value/name lists into the "set" or "clear" slot.
The accumulating slices start nil, so a mask with none of the three bits
stores nil. -/
def addTrustLineFlagToDetails (operationDetails : Details) (f : Nat)
    (pfx : String) : Details :=
  let n : Option (List Int) := none
  let s : Option (List String) := none
  let (n, s) := if isAuthorized f then
      (goAppend n 1, goAppend s "authorized") else (n, s)
  let (n, s) := if isAuthorizedToMaintainLiabilitiesFlag f then
      (goAppend n 2, goAppend s "authorized_to_maintain_liabilities") else (n, s)
  let (n, s) := if isClawbackEnabledFlag f then
      (goAppend n 4, goAppend s "clawback_enabled") else (n, s)
  match pfx with
  | "set" => { operationDetails with SetFlags := n, SetFlagsString := s }
  | "clear" => { operationDetails with ClearFlags := n, ClearFlagsString := s }
  | _ => operationDetails

/-- `addLedgerKeyToDetails`: copies the ledger-key–specific fields by key
kind; a key kind outside the five handled cases leaves the details
untouched (no default branch).  Fails only when the claimable-balance id
cannot be marshalled to hex. -/
def addLedgerKeyToDetails (operationDetails : Details)
    (ledgerKey : LedgerKey) : Except OpError Details :=
  match ledgerKey with
  | .account accountId =>
      .ok { operationDetails with AccountID := accountAddress accountId }
  | .claimableBalance balanceId =>
      match marshalHexBalanceId balanceId with
      | .error e => .error (.claimableBalanceKey e)
      | .ok marshalHex =>
          .ok { operationDetails with ClaimableBalanceID := marshalHex }
  | .data accountId dataName =>
      .ok { operationDetails with
        DataAccountID := accountAddress accountId
        DataName := dataName }
  | .offer offerId =>
      .ok { operationDetails with OfferID := offerId }
  | .trustline accountId asset =>
      .ok { operationDetails with
        TrustlineAccountID := accountAddress accountId
        TrustlineAsset := asset.stringCanonical }
  | .other => .ok operationDetails

/-- The loop body of `transformPath`: extracts each asset in order,
appending its triplet; any extraction failure makes the whole path nil. -/
def transformPathLoop (assets : List Asset) (acc : List Path) :
    Option (List Path) :=
  match assets with
  | [] => some acc
  | pathAsset :: rest =>
    match pathAsset.extract with
    | .error _ => none
    | .ok (assetType, code, issuer) =>
        transformPathLoop rest
          (acc ++ [{ AssetType := assetType, AssetIssuer := issuer, AssetCode := code }])

/-- `transformPath`: nil for an empty input path; otherwise the extracted
triplets in order, or nil if any element fails to extract. -/
def transformPath (initialPath : List Asset) : Option (List Path) :=
  if initialPath.length = 0 then none
  else transformPathLoop initialPath []

/-- The reverse scan of `findInitatingBeginSponsoringOp`: argument `i+1`
examines sibling index `i` first and walks down to 0, returning the first
begin-sponsoring operation whose declared sponsored account renders to the
same address as the sponsoree. -/
def findBeginSponsoringLoop (operations : List Operation)
    (sponsoree : AccountId) : Nat → Option SponsorshipOutput
  | 0 => none
  | Nat.succ i =>
    match operations[i]? with
    | some oper =>
      match oper.body.getBeginSponsoringFutureReservesOp with
      | some sponsoredId =>
        if accountAddress sponsoredId = accountAddress sponsoree then
          some { Operation := oper, OperationIndex := i }
        else findBeginSponsoringLoop operations sponsoree i
      | none => findBeginSponsoringLoop operations sponsoree i
    | none => findBeginSponsoringLoop operations sponsoree i

/-- `findInitatingBeginSponsoringOp`: bails out (no match) on a failed
transaction, otherwise scans sibling operations in reverse from
`operationIndex - 1` down to 0 for the first begin-sponsoring operation
declaring the current operation's resolved source as sponsoree. -/
def findInitatingBeginSponsoringOp (operation : Operation)
    (operationIndex : Int) (transaction : LedgerTransaction) :
    Option SponsorshipOutput :=
  if !transaction.result.successful then none
  else
    let sponsoree := (getOperationSourceAccount operation transaction).toAccountId
    let operations := transaction.envelope.operations
    findBeginSponsoringLoop operations sponsoree operationIndex.toNat

/-- `addOperationFlagToOperationDetails`: tests the three account flag bits
in order (auth_required, auth_revocable, auth_immutable) and stores the
parallel value/name lists into the "set" or "clear" slot.  The
accumulating slices start empty (non-nil). -/
def addOperationFlagToOperationDetails (operationDetails : Details)
    (flag : Nat) (pfx : String) : Details :=
  let intFlags : Option (List Int) := some []
  let stringFlags : Option (List String) := some []
  let (intFlags, stringFlags) := if flag &&& 1 ≠ 0 then
      (goAppend intFlags 1, goAppend stringFlags "auth_required")
      else (intFlags, stringFlags)
  let (intFlags, stringFlags) := if flag &&& 2 ≠ 0 then
      (goAppend intFlags 2, goAppend stringFlags "auth_revocable")
      else (intFlags, stringFlags)
  let (intFlags, stringFlags) := if flag &&& 4 ≠ 0 then
      (goAppend intFlags 4, goAppend stringFlags "auth_immutable")
      else (intFlags, stringFlags)
  match pfx with
  | "set" => { operationDetails with SetFlags := intFlags, SetFlagsString := stringFlags }
  | "clear" => { operationDetails with ClearFlags := intFlags, ClearFlagsString := stringFlags }
  | _ => operationDetails

/-- `ensureSlicesAreNotNil`: replaces each nil list-valued field with an
empty (present) sequence. -/
def ensureSlicesAreNotNil (details : Details) : Details :=
  let details := if details.Path = none then { details with Path := some [] } else details
  let details := if details.SetFlags = none then { details with SetFlags := some [] } else details
  let details := if details.SetFlagsString = none then { details with SetFlagsString := some [] } else details
  let details := if details.ClearFlags = none then { details with ClearFlags := some [] } else details
  let details := if details.ClearFlagsString = none then { details with ClearFlagsString := some [] } else details
  details

/-- The switch of `extractOperationDetails` over the operation kind (the
Detail Dispatcher), factored out of the surrounding function for proof
convenience.  `currentOperationResult` is the per-operation execution
result fetched (for every kind) before the switch runs. -/
def detailsForBody (operation : Operation) (transaction : LedgerTransaction)
    (operationIndex : Int) (sourceAccount : MuxedAccount)
    (sourceAccountAddress : String)
    (currentOperationResult : OperationResult) : Except OpError Details :=
  match operation.body with
  | .createAccount destination startingBalance =>
      .ok { Funder := sourceAccountAddress
            Account := accountAddress destination
            StartingBalance := ConvertStroopValueToReal startingBalance }
  | .payment destination asset amount =>
      let outputDetails : Details := { From := sourceAccountAddress }
      match GetAccountAddressFromMuxedAccount destination with
      | .error e => .error e
      | .ok toAccountAddress =>
        let outputDetails := { outputDetails with
          To := toAccountAddress
          Amount := ConvertStroopValueToReal amount }
        match addAssetDetailsToOperationDetails outputDetails asset "" with
        | .error e => .error (.assetExtract e)
        | .ok outputDetails => .ok outputDetails
  | .pathPaymentStrictReceive sendAsset sendMax destination destAsset destAmount path =>
      let outputDetails : Details := { From := sourceAccountAddress }
      match GetAccountAddressFromMuxedAccount destination with
      | .error e => .error e
      | .ok toAccountAddress =>
        let outputDetails := { outputDetails with
          To := toAccountAddress
          Amount := ConvertStroopValueToReal destAmount
          SourceMax := ConvertStroopValueToReal sendMax }
        let outputDetails := addAssetDetailsDiscardingError outputDetails destAsset ""
        let outputDetails := addAssetDetailsDiscardingError outputDetails sendAsset "source"
        let afterResult : Except OpError Details :=
          if transaction.result.successful then
            match currentOperationResult.tr with
            | none => .error (.missingResultBody operationIndex)
            | some resultBody =>
              match resultBody.getPathPaymentStrictReceiveResult with
              | none => .error (.missingStrictReceiveResult operationIndex)
              | some sendAmount =>
                  .ok { outputDetails with
                    SourceAmount := ConvertStroopValueToReal sendAmount }
          else .ok outputDetails
        match afterResult with
        | .error e => .error e
        | .ok outputDetails =>
            .ok { outputDetails with Path := transformPath path }
  | .pathPaymentStrictSend sendAsset sendAmount destination destAsset destMin path =>
      let outputDetails : Details := { From := sourceAccountAddress }
      match GetAccountAddressFromMuxedAccount destination with
      | .error e => .error e
      | .ok toAccountAddress =>
        let outputDetails := { outputDetails with
          To := toAccountAddress
          SourceAmount := ConvertStroopValueToReal sendAmount
          DestinationMin := amountString destMin }
        let outputDetails := addAssetDetailsDiscardingError outputDetails destAsset ""
        let outputDetails := addAssetDetailsDiscardingError outputDetails sendAsset "source"
        let afterResult : Except OpError Details :=
          if transaction.result.successful then
            match currentOperationResult.tr with
            | none => .error (.missingResultBody operationIndex)
            | some resultBody =>
              match resultBody.getPathPaymentStrictSendResult with
              | none => .error (.missingStrictSendResult operationIndex)
              | some destAmount =>
                  .ok { outputDetails with
                    Amount := ConvertStroopValueToReal destAmount }
          else .ok outputDetails
        match afterResult with
        | .error e => .error e
        | .ok outputDetails =>
            .ok { outputDetails with Path := transformPath path }
  | .manageBuyOffer selling buying buyAmount priceN priceD offerId =>
      let outputDetails : Details := {
        OfferID := offerId
        Amount := ConvertStroopValueToReal buyAmount
        Price := parsedPriceApprox priceN priceD
        PriceR := { Numerator := priceN, Denominator := priceD } }
      let outputDetails := addAssetDetailsDiscardingError outputDetails buying "buying"
      let outputDetails := addAssetDetailsDiscardingError outputDetails selling "selling"
      .ok outputDetails
  | .manageSellOffer selling buying amount priceN priceD offerId =>
      let outputDetails : Details := {
        OfferID := offerId
        Amount := ConvertStroopValueToReal amount
        Price := parsedPriceApprox priceN priceD
        PriceR := { Numerator := priceN, Denominator := priceD } }
      let outputDetails := addAssetDetailsDiscardingError outputDetails buying "buying"
      let outputDetails := addAssetDetailsDiscardingError outputDetails selling "selling"
      .ok outputDetails
  | .createPassiveSellOffer selling buying amount priceN priceD =>
      let outputDetails : Details := {
        Amount := ConvertStroopValueToReal amount
        Price := parsedPriceApprox priceN priceD
        PriceR := { Numerator := priceN, Denominator := priceD } }
      let outputDetails := addAssetDetailsDiscardingError outputDetails buying "buying"
      let outputDetails := addAssetDetailsDiscardingError outputDetails selling "selling"
      .ok outputDetails
  | .setOptions inflationDest clearFlags setFlags masterWeight lowThreshold
      medThreshold highThreshold homeDomain signer =>
      let outputDetails : Details := {}
      let outputDetails := match inflationDest with
        | some dest => { outputDetails with InflationDest := accountAddress dest }
        | none => outputDetails
      let outputDetails := match setFlags with
        | some sf =>
            if sf > 0 then addOperationFlagToOperationDetails outputDetails sf "set"
            else outputDetails
        | none => outputDetails
      let outputDetails := match clearFlags with
        | some cf =>
            if cf > 0 then addOperationFlagToOperationDetails outputDetails cf "clear"
            else outputDetails
        | none => outputDetails
      let outputDetails := match masterWeight with
        | some w => { outputDetails with MasterKeyWeight := w }
        | none => outputDetails
      let outputDetails := match lowThreshold with
        | some t => { outputDetails with LowThreshold := t }
        | none => outputDetails
      let outputDetails := match medThreshold with
        | some t => { outputDetails with MedThreshold := t }
        | none => outputDetails
      let outputDetails := match highThreshold with
        | some t => { outputDetails with HighThreshold := t }
        | none => outputDetails
      let outputDetails := match homeDomain with
        | some h => { outputDetails with HomeDomain := h }
        | none => outputDetails
      let outputDetails := match signer with
        | some sgn => { outputDetails with
            SignerKey := sgn.1
            SignerWeight := sgn.2 }
        | none => outputDetails
      .ok outputDetails
  | .changeTrust line limit =>
      let outputDetails := addAssetDetailsDiscardingError {} line ""
      .ok { outputDetails with
        Trustor := sourceAccountAddress
        Trustee := outputDetails.AssetIssuer
        Limit := ConvertStroopValueToReal limit }
  | .allowTrust trustor asset authorize =>
      let outputDetails :=
        addAssetDetailsDiscardingError {} (asset.toAsset sourceAccount.toAccountId) ""
      .ok { outputDetails with
        Trustee := sourceAccountAddress
        Trustor := accountAddress trustor
        Authorize := isAuthorized authorize }
  | .accountMerge destination =>
      match GetAccountAddressFromMuxedAccount destination with
      | .error e => .error e
      | .ok destinationAccountAddress =>
          .ok { Account := sourceAccountAddress
                Into := destinationAccountAddress }
  | .inflation => .ok {}
  | .manageData dataName dataValue =>
      .ok { Name := dataName
            Value := match dataValue with
              | some v => base64Encode v
              | none => "" }
  | .bumpSequence bumpTo =>
      .ok { BumpTo := toString bumpTo }
  | .createClaimableBalance asset amount claimants =>
      .ok { AssetCode := asset.stringCanonical
            Amount := ConvertStroopValueToReal amount
            Claimants := claimants.foldl
              (fun acc c => goAppend acc
                { Destination := accountAddress c.destination
                  Predicate := c.predicate })
              none }
  | .claimClaimableBalance balanceId =>
      match marshalHexBalanceId balanceId with
      | .error _ => .error (.invalidBalanceId operationIndex)
      | .ok balanceID =>
          .ok { BalanceID := balanceID
                Account := sourceAccountAddress }
  | .beginSponsoringFutureReserves sponsoredId =>
      .ok { SponsoredID := accountAddress sponsoredId }
  | .endSponsoringFutureReserves =>
      match findInitatingBeginSponsoringOp operation operationIndex transaction with
      | some beginSponsorOp =>
        let beginSponsorshipSource :=
          getOperationSourceAccount beginSponsorOp.Operation transaction
        match GetAccountAddressFromMuxedAccount beginSponsorshipSource with
        | .error _ => .error (.sponsorAddress operationIndex)
        | .ok beginSponsorAddress =>
            .ok { BeginSponsor := beginSponsorAddress }
      | none => .ok {}
  | .revokeSponsorship arg =>
      match arg with
      | .ledgerEntry key => addLedgerKeyToDetails {} key
      | .signer accountId signerKey =>
          .ok { SignerAccountID := accountAddress accountId
                SignerKey := signerKey }
  | .clawback asset fromAcc amount =>
      let outputDetails := addAssetDetailsDiscardingError {} asset ""
      match GetAccountAddressFromMuxedAccount fromAcc with
      | .error e => .error e
      | .ok fromAccount =>
          .ok { outputDetails with
            From := fromAccount
            Amount := ConvertStroopValueToReal amount }
  | .clawbackClaimableBalance balanceId =>
      match marshalHexBalanceId balanceId with
      | .error _ => .error (.invalidBalanceId operationIndex)
      | .ok balanceID => .ok { BalanceID := balanceID }
  | .setTrustLineFlags trustor asset clearFlags setFlags =>
      let outputDetails : Details := { Trustor := accountAddress trustor }
      let outputDetails := addAssetDetailsDiscardingError outputDetails asset ""
      let outputDetails :=
        if setFlags > 0 then addTrustLineFlagToDetails outputDetails setFlags "set"
        else outputDetails
      let outputDetails :=
        if clearFlags > 0 then addTrustLineFlagToDetails outputDetails clearFlags "clear"
        else outputDetails
      .ok outputDetails
  | .other tag => .error (.unsupportedOperationType tag)

/-- `extractOperationDetails`: resolves the source address, requires the
transaction's per-operation results to be present, fetches the result at
`operationIndex` (an out-of-bounds index is the Go runtime panic, modelled
as `indexOutOfBounds`), runs the dispatcher switch and finally defaults
nil list-valued fields to empty sequences. -/
def extractOperationDetails (operation : Operation)
    (transaction : LedgerTransaction) (operationIndex : Int) :
    Except OpError Details :=
  let sourceAccount := getOperationSourceAccount operation transaction
  match GetAccountAddressFromMuxedAccount sourceAccount with
  | .error e => .error e
  | .ok sourceAccountAddress =>
    match transaction.result.opResults with
    | none => .error .missingResults
    | some allOperationResults =>
      match (if 0 ≤ operationIndex then
          allOperationResults[operationIndex.toNat]? else none) with
      | none => .error .indexOutOfBounds
      | some currentOperationResult =>
        match detailsForBody operation transaction operationIndex
            sourceAccount sourceAccountAddress currentOperationResult with
        | .error e => .error e
        | .ok outputDetails => .ok (ensureSlicesAreNotNil outputDetails)

/-- `TransformOperation`: computes the transaction and operation ids,
resolves and renders the source account, rejects negative type tags,
extracts the details and assembles the output row.  On any error the Go
function returns the zero `OperationOutput` together with the error; here
the error alone is returned. -/
def TransformOperation (operation : Operation) (operationIndex : Int)
    (transaction : LedgerTransaction) (ledgerSeq : Int) :
    Except OpError OperationOutput :=
  let outputTransactionID := toidToInt64 ledgerSeq transaction.index 0
  let outputOperationID := toidToInt64 ledgerSeq transaction.index (operationIndex + 1)
  match GetAccountAddressFromMuxedAccount
      (getOperationSourceAccount operation transaction) with
  | .error e => .error e
  | .ok outputSourceAccount =>
    let outputOperationType := operation.body.typeTag
    if outputOperationType < 0 then .error (.negativeType outputOperationType)
    else
      match extractOperationDetails operation transaction operationIndex with
      | .error e => .error e
      | .ok outputDetails =>
          .ok { SourceAccount := outputSourceAccount
                type := outputOperationType
                ApplicationOrder := operationIndex + 1
                TransactionID := outputTransactionID
                OperationID := outputOperationID
                OperationDetails := outputDetails }

/-! ## Shared lemmas -/

/-- `ensureSlicesAreNotNil` in closed form: every list-valued field becomes
present (defaulting nil to empty), all other fields are untouched. -/
theorem ensureSlices_eq (d : Details) :
    ensureSlicesAreNotNil d =
      { d with
        Path := some (d.Path.getD [])
        SetFlags := some (d.SetFlags.getD [])
        SetFlagsString := some (d.SetFlagsString.getD [])
        ClearFlags := some (d.ClearFlags.getD [])
        ClearFlagsString := some (d.ClearFlagsString.getD []) } := by
  unfold ensureSlicesAreNotNil
  rcases hP : d.Path with _ | lP <;>
    rcases hS : d.SetFlags with _ | lS <;>
      rcases hSS : d.SetFlagsString with _ | lSS <;>
        rcases hC : d.ClearFlags with _ | lC <;>
          rcases hCS : d.ClearFlagsString with _ | lCS <;>
            (simp [hP, hS, hSS, hC, hCS] <;>
              first
                | rfl
                | ((try rw [← hP]); (try rw [← hS]); (try rw [← hSS]);
                   (try rw [← hC]); (try rw [← hCS])))

/-- Unfolding equation for `extractOperationDetails`. -/
theorem extract_eq (op : Operation) (tx : LedgerTransaction) (i : Int) :
    extractOperationDetails op tx i =
      match GetAccountAddressFromMuxedAccount (getOperationSourceAccount op tx) with
      | .error e => .error e
      | .ok addr =>
        match tx.result.opResults with
        | none => .error .missingResults
        | some rs =>
          match (if 0 ≤ i then rs[i.toNat]? else none) with
          | none => .error .indexOutOfBounds
          | some r =>
            match detailsForBody op tx i (getOperationSourceAccount op tx) addr r with
            | .error e => .error e
            | .ok od => .ok (ensureSlicesAreNotNil od) := rfl

/-- Unfolding equation for `TransformOperation`. -/
theorem transform_eq (op : Operation) (i : Int) (tx : LedgerTransaction) (ls : Int) :
    TransformOperation op i tx ls =
      match GetAccountAddressFromMuxedAccount (getOperationSourceAccount op tx) with
      | .error e => .error e
      | .ok addr =>
        if op.body.typeTag < 0 then .error (.negativeType op.body.typeTag)
        else
          match extractOperationDetails op tx i with
          | .error e => .error e
          | .ok od =>
              .ok { SourceAccount := addr
                    type := op.body.typeTag
                    ApplicationOrder := i + 1
                    TransactionID := toidToInt64 ls tx.index 0
                    OperationID := toidToInt64 ls tx.index (i + 1)
                    OperationDetails := od } := rfl

/-- Every successful extraction went through `ensureSlicesAreNotNil`. -/
theorem extract_ok_shape (op : Operation) (tx : LedgerTransaction) (i : Int) (d : Details)
    (h : extractOperationDetails op tx i = .ok d) :
    ∃ d', d = ensureSlicesAreNotNil d' := by
  rw [extract_eq] at h
  rcases hsrc : GetAccountAddressFromMuxedAccount (getOperationSourceAccount op tx) with e | addr <;>
    rw [hsrc] at h <;> simp only [] at h
  · cases h
  rcases hres : tx.result.opResults with _ | rs <;> rw [hres] at h <;> simp only [] at h
  · cases h
  rcases hidx : (if 0 ≤ i then rs[i.toNat]? else none) with _ | r <;>
    rw [hidx] at h <;> simp only [] at h
  · cases h
  rcases hdb : detailsForBody op tx i (getOperationSourceAccount op tx) addr r with e | od <;>
    rw [hdb] at h <;> simp only [] at h
  · cases h
  exact ⟨od, (Except.ok.injEq _ _ |>.mp h).symm⟩

/-- Anatomy of a successful `TransformOperation`: the ids come from the
identifier encoding and the details from `extractOperationDetails`. -/
theorem transform_ok_anatomy (op : Operation) (i : Int) (tx : LedgerTransaction)
    (ls : Int) (r : OperationOutput) (h : TransformOperation op i tx ls = .ok r) :
    r.TransactionID = toidToInt64 ls tx.index 0 ∧
    r.OperationID = toidToInt64 ls tx.index (i + 1) ∧
    extractOperationDetails op tx i = .ok r.OperationDetails := by
  rw [transform_eq] at h
  rcases hsrc : GetAccountAddressFromMuxedAccount (getOperationSourceAccount op tx) with e | addr <;>
    rw [hsrc] at h <;> simp only [] at h
  · cases h
  split at h
  · cases h
  rcases hext : extractOperationDetails op tx i with e | od <;>
    rw [hext] at h <;> simp only [] at h
  · cases h
  obtain rfl := (Except.ok.injEq _ _ |>.mp h)
  exact ⟨rfl, rfl, rfl⟩

/-! ## Sample inputs used by witnesses -/

/-- A valid muxed account with key `n`. -/
def sampleAcct (n : Nat) : MuxedAccount := ⟨n, true⟩

/-- A per-operation result carrying no readable body. -/
def sampleRes : OperationResult := ⟨some .otherTr⟩

/-- A three-operation sponsorship sandwich transaction
`[Begin(sponsored=5), Payment(source=5), End(source=5)]`. -/
def sandwichTx (succ : Bool) : LedgerTransaction :=
  { index := 1
    envelope := { sourceAccount := sampleAcct 1
                  operations := [⟨none, .beginSponsoringFutureReserves 5⟩,
                    ⟨some (sampleAcct 5), .payment (sampleAcct 9) .native 100⟩,
                    ⟨some (sampleAcct 5), .endSponsoringFutureReserves⟩] }
    result := { successful := succ, opResults := some [sampleRes, sampleRes, sampleRes] } }

/-! ## C1: end-sponsoring lookback -/

/-- Whether sibling index `j` holds a begin-sponsoring operation declaring
`sponsoree` (the scan condition of the lookback loop at one index). -/
def isBeginSponsoringMatch (operations : List Operation) (sponsoree : AccountId)
    (j : Nat) : Bool :=
  match operations[j]? with
  | some oper =>
    match oper.body.getBeginSponsoringFutureReservesOp with
    | some sponsoredId => accountAddress sponsoredId = accountAddress sponsoree
    | none => false
  | none => false

/-- The lookback loop equals a first-match search over the reversed index
range `[n-1, ..., 0]`. -/
theorem findLoop_eq_find (ops : List Operation) (spn : AccountId) (n : Nat) :
    findBeginSponsoringLoop ops spn n =
      ((List.range n).reverse.find? (fun j => isBeginSponsoringMatch ops spn j)).bind
        (fun j => (ops[j]?).map (fun oper => ⟨oper, j⟩)) := by
  induction n with
  | zero => rfl
  | succ i ih =>
    rw [List.range_succ, List.reverse_append]
    simp only [List.reverse_singleton, List.singleton_append]
    unfold findBeginSponsoringLoop
    split
    next oper hg =>
      split
      next sid hb =>
        split
        next haddr =>
          rw [List.find?_cons_of_pos _ (by simp [isBeginSponsoringMatch, hg, hb, haddr])]
          simp [hg]
        next haddr =>
          rw [List.find?_cons_of_neg _ (by simp [isBeginSponsoringMatch, hg, hb, haddr])]
          exact ih
      next hb =>
        rw [List.find?_cons_of_neg _ (by simp [isBeginSponsoringMatch, hg, hb])]
        exact ih
    next hg =>
      rw [List.find?_cons_of_neg _ (by simp [isBeginSponsoringMatch, hg])]
      exact ih

/-- The resolver: no match on a failed transaction, else the backward scan. -/
theorem findInitating_eq (operation : Operation) (i : Int) (tx : LedgerTransaction) :
    findInitatingBeginSponsoringOp operation i tx =
      if tx.result.successful then
        (((List.range i.toNat).reverse.find? (fun j =>
            isBeginSponsoringMatch tx.envelope.operations
              ((getOperationSourceAccount operation tx).toAccountId) j)).bind
          (fun j => (tx.envelope.operations[j]?).map (fun oper => ⟨oper, j⟩)))
      else none := by
  unfold findInitatingBeginSponsoringOp
  by_cases h : tx.result.successful <;> simp [h, findLoop_eq_find]

/-- A positive scan condition exposes the matched begin operation. -/
theorem beginMatch_get (ops : List Operation) (spn : AccountId) (j : Nat)
    (h : isBeginSponsoringMatch ops spn j = true) :
    ∃ oper sid, ops[j]? = some oper ∧
      oper.body.getBeginSponsoringFutureReservesOp = some sid ∧
      accountAddress sid = accountAddress spn := by
  unfold isBeginSponsoringMatch at h
  split at h
  next oper hg =>
    split at h
    next sid hb => exact ⟨oper, sid, hg, hb, by simpa using h⟩
    next => cases h
  next => cases h

/-- `ensureSlicesAreNotNil` does not touch `BeginSponsor`. -/
theorem ensure_BeginSponsor (d : Details) :
    (ensureSlicesAreNotNil d).BeginSponsor = d.BeginSponsor := by
  rw [ensureSlices_eq]

/-- C1: for an end-sponsoring-future-reserves operation at index `i` whose
extraction succeeds: on a failed transaction `begin_sponsor` is empty; on a
successful transaction, scanning sibling indices in reverse from `i-1` down
to 0 for the first begin-sponsoring operation whose declared sponsored
account equals the operation's resolved source address either finds nothing
(then `begin_sponsor` is empty) or finds the match, and `begin_sponsor` is
the rendered source address of that matched begin operation. -/
theorem C1_end_sponsoring_lookback (osrc : Option MuxedAccount) (tx : LedgerTransaction)
    (i : Int) (d : Details)
    (hok : extractOperationDetails ⟨osrc, .endSponsoringFutureReserves⟩ tx i = .ok d) :
    (tx.result.successful = false → d.BeginSponsor = "") ∧
    (tx.result.successful = true →
      ((List.range i.toNat).reverse.find? (fun j =>
          isBeginSponsoringMatch tx.envelope.operations
            ((getOperationSourceAccount ⟨osrc, .endSponsoringFutureReserves⟩ tx).toAccountId) j) = none
        ∧ d.BeginSponsor = "") ∨
      (∃ j oper,
        (List.range i.toNat).reverse.find? (fun k =>
          isBeginSponsoringMatch tx.envelope.operations
            ((getOperationSourceAccount ⟨osrc, .endSponsoringFutureReserves⟩ tx).toAccountId) k) = some j ∧
        tx.envelope.operations[j]? = some oper ∧
        (∃ sid, oper.body.getBeginSponsoringFutureReservesOp = some sid ∧
          accountAddress sid =
            accountAddress ((getOperationSourceAccount ⟨osrc, .endSponsoringFutureReserves⟩ tx).toAccountId)) ∧
        GetAccountAddressFromMuxedAccount (getOperationSourceAccount oper tx) = .ok d.BeginSponsor)) := by
  rw [extract_eq] at hok
  rcases hsrc : GetAccountAddressFromMuxedAccount
      (getOperationSourceAccount ⟨osrc, .endSponsoringFutureReserves⟩ tx) with e | addr <;>
    rw [hsrc] at hok <;> simp only [] at hok
  · cases hok
  rcases hres : tx.result.opResults with _ | rs <;> rw [hres] at hok <;> simp only [] at hok
  · cases hok
  rcases hidx : (if 0 ≤ i then rs[i.toNat]? else none) with _ | r <;>
    rw [hidx] at hok <;> simp only [] at hok
  · cases hok
  simp only [detailsForBody] at hok
  rw [findInitating_eq] at hok
  cases hsucc : tx.result.successful
  case false =>
    rw [hsucc] at hok
    simp only [Bool.false_eq_true, if_false] at hok
    obtain rfl := (Except.ok.injEq _ _ |>.mp hok)
    refine ⟨fun _ => ?_, fun htrue => Bool.noConfusion htrue⟩
    rw [ensure_BeginSponsor]
  case true =>
    rw [hsucc] at hok
    simp only [if_true] at hok
    refine ⟨fun hfalse => Bool.noConfusion hfalse, fun _ => ?_⟩
    rcases hfind : (List.range i.toNat).reverse.find? (fun j =>
        isBeginSponsoringMatch tx.envelope.operations
          ((getOperationSourceAccount ⟨osrc, .endSponsoringFutureReserves⟩ tx).toAccountId) j)
      with _ | j <;> rw [hfind] at hok <;> simp only [Option.bind] at hok
    · left
      obtain rfl := (Except.ok.injEq _ _ |>.mp hok)
      refine ⟨rfl, ?_⟩
      rw [ensure_BeginSponsor]
    · obtain ⟨oper, sid, hg, hb, haddr⟩ :=
        beginMatch_get _ _ _ (List.find?_some hfind)
      rw [hg] at hok
      simp only [Option.map] at hok
      rcases hga : GetAccountAddressFromMuxedAccount (getOperationSourceAccount oper tx)
        with e | a <;> rw [hga] at hok <;> simp only [] at hok
      · cases hok
      right
      obtain rfl := (Except.ok.injEq _ _ |>.mp hok)
      refine ⟨j, oper, rfl, hg, ⟨sid, hb, haddr⟩, ?_⟩
      rw [ensure_BeginSponsor]
      exact hga

/-- The details record produced for the end operation of the failed
sponsorship sandwich. -/
def c1FailedDetails : Details :=
  { BeginSponsor := "", Path := some [], SetFlags := some [],
    SetFlagsString := some [], ClearFlags := some [], ClearFlagsString := some [] }

/-- Witness for C1 at the failed sponsorship sandwich: `begin_sponsor`
stays empty. -/
theorem C1_end_sponsoring_lookback_witness : c1FailedDetails.BeginSponsor = "" :=
  (C1_end_sponsoring_lookback (some (sampleAcct 5)) (sandwichTx false) 2
    c1FailedDetails rfl).1 rfl

/-! ## C3: list-valued fields always present -/

/-- C3: whenever `TransformOperation` succeeds, the five list-valued fields
(`path`, `set_flags`, `set_flags_string`, `clear_flags`,
`clear_flags_string`) of the returned record are present (possibly empty)
sequences, never nil. -/
theorem C3_list_fields_present (op : Operation) (i : Int) (tx : LedgerTransaction)
    (ls : Int) (r : OperationOutput) (h : TransformOperation op i tx ls = .ok r) :
    r.OperationDetails.Path.isSome = true ∧
    r.OperationDetails.SetFlags.isSome = true ∧
    r.OperationDetails.SetFlagsString.isSome = true ∧
    r.OperationDetails.ClearFlags.isSome = true ∧
    r.OperationDetails.ClearFlagsString.isSome = true := by
  obtain ⟨-, -, hext⟩ := transform_ok_anatomy op i tx ls r h
  obtain ⟨d', hd⟩ := extract_ok_shape op tx i _ hext
  rw [hd, ensureSlices_eq]
  simp

/-- An inflation operation inside a minimal transaction. -/
def c3Op : Operation := ⟨none, .inflation⟩

/-- Minimal single-operation transaction for the C3 witness. -/
def c3Tx : LedgerTransaction :=
  { index := 1
    envelope := { sourceAccount := sampleAcct 1, operations := [c3Op] }
    result := { successful := true, opResults := some [sampleRes] } }

/-- The record `TransformOperation` produces for `c3Op`. -/
def c3Out : OperationOutput :=
  { SourceAccount := "G1"
    type := 9
    ApplicationOrder := 1
    TransactionID := 42949677056
    OperationID := 42949677057
    OperationDetails :=
      { Path := some []
        SetFlags := some []
        SetFlagsString := some []
        ClearFlags := some []
        ClearFlagsString := some [] } }

/-- Witness for C3 at a concrete inflation operation. -/
theorem C3_list_fields_present_witness :
    c3Out.OperationDetails.Path.isSome = true ∧
    c3Out.OperationDetails.SetFlags.isSome = true ∧
    c3Out.OperationDetails.SetFlagsString.isSome = true ∧
    c3Out.OperationDetails.ClearFlags.isSome = true ∧
    c3Out.OperationDetails.ClearFlagsString.isSome = true :=
  C3_list_fields_present c3Op 0 c3Tx 10 c3Out rfl

/-! ## C8: stroop conversion -/

/-- C8: the stroop-to-decimal conversion is the exact rational division by
`10^7` — multiplying back by `10^7` recovers the integer stroop value for
every input, so no rounding beyond 7 fractional digits is introduced — and
on the spec's examples: 15000000 stroops is exactly 1.5 and 1 stroop is
exactly 0.0000001. -/
theorem C8_stroop_conversion :
    (∀ s : Int, ConvertStroopValueToReal s * 10 ^ 7 = (s : Rat)) ∧
    ConvertStroopValueToReal 15000000 = (1.5 : Rat) ∧
    ConvertStroopValueToReal 1 = (0.0000001 : Rat) := by
  refine ⟨fun s => ?_, by norm_num [ConvertStroopValueToReal], by norm_num [ConvertStroopValueToReal]⟩
  rw [ConvertStroopValueToReal]
  norm_num

/-! ## C4: identifier ordering -/

/-- Packing monotonicity across ledger sequences: any id from a smaller
ledger sequence is below any id from a larger one, provided the packed
components respect their field widths (transaction index below `2^20`,
operation component below `2^12`). -/
theorem toid_lt_of_ledger_lt (ls1 ls2 : Int) (t1 t2 : Nat) (k1 k2 : Int)
    (h : ls1 < ls2) (_hk1 : 0 ≤ k1) (hk1' : k1 < 4096) (ht1 : t1 < 1048576)
    (hk2 : 0 ≤ k2) :
    toidToInt64 ls1 t1 k1 < toidToInt64 ls2 t2 k2 := by
  unfold toidToInt64
  have ht1' : (t1 : Int) ≤ 1048575 := by exact_mod_cast Nat.lt_succ_iff.mp ht1
  have h1 : (t1 : Int) * 2 ^ 12 + k1 < 2 ^ 32 := by nlinarith
  have h2 : 0 ≤ (t2 : Int) * 2 ^ 12 + k2 := by
    have := mul_nonneg (Int.natCast_nonneg t2) (show (0 : Int) ≤ 2 ^ 12 by norm_num)
    linarith
  have hls : ls1 + 1 ≤ ls2 := h
  nlinarith [mul_le_mul_of_nonneg_right hls (show (0 : Int) ≤ 2 ^ 32 by norm_num)]

/-- C4: identifier ordering of transformed records.  (1) Within one
transaction and ledger, `operation_id` strictly increases with the
zero-based operation index.  (2) Across ledgers, both `operation_id` and
`transaction_id` of every record from a smaller ledger sequence are
strictly below those from a larger one, for any transaction/operation
indices within the packing's field widths.  (3) A record's
`transaction_id` is strictly below its `operation_id`. -/
theorem C4_identifier_ordering :
    (∀ (opA opB : Operation) (iA iB : Int) (tx : LedgerTransaction) (ls : Int)
        (rA rB : OperationOutput),
      TransformOperation opA iA tx ls = .ok rA →
      TransformOperation opB iB tx ls = .ok rB →
      iA < iB → rA.OperationID < rB.OperationID) ∧
    (∀ (op1 op2 : Operation) (i1 i2 : Int) (tx1 tx2 : LedgerTransaction)
        (ls1 ls2 : Int) (r1 r2 : OperationOutput),
      TransformOperation op1 i1 tx1 ls1 = .ok r1 →
      TransformOperation op2 i2 tx2 ls2 = .ok r2 →
      ls1 < ls2 →
      0 ≤ i1 → i1 + 1 < 4096 → tx1.index < 1048576 →
      0 ≤ i2 → i2 + 1 < 4096 →
      r1.OperationID < r2.OperationID ∧ r1.TransactionID < r2.TransactionID ∧
      r1.OperationID < r2.TransactionID ∧ r1.TransactionID < r2.OperationID) ∧
    (∀ (op : Operation) (i : Int) (tx : LedgerTransaction) (ls : Int)
        (r : OperationOutput),
      TransformOperation op i tx ls = .ok r → 0 ≤ i →
      r.TransactionID < r.OperationID) := by
  refine ⟨?_, ?_, ?_⟩
  · intro opA opB iA iB tx ls rA rB hA hB hlt
    obtain ⟨-, hAop, -⟩ := transform_ok_anatomy opA iA tx ls rA hA
    obtain ⟨-, hBop, -⟩ := transform_ok_anatomy opB iB tx ls rB hB
    rw [hAop, hBop]
    unfold toidToInt64
    linarith
  · intro op1 op2 i1 i2 tx1 tx2 ls1 ls2 r1 r2 h1 h2 hls hi1 hi1' ht1 hi2 hi2'
    obtain ⟨h1tx, h1op, -⟩ := transform_ok_anatomy op1 i1 tx1 ls1 r1 h1
    obtain ⟨h2tx, h2op, -⟩ := transform_ok_anatomy op2 i2 tx2 ls2 r2 h2
    rw [h1tx, h1op, h2tx, h2op]
    refine ⟨?_, ?_, ?_, ?_⟩ <;>
      exact toid_lt_of_ledger_lt _ _ _ _ _ _ hls (by linarith) (by linarith) ht1 (by linarith)
  · intro op i tx ls r h hi
    obtain ⟨htx, hop, -⟩ := transform_ok_anatomy op i tx ls r h
    rw [htx, hop]
    unfold toidToInt64
    linarith

/-- The record produced for the begin-sponsoring operation of the
sandwich at ledger 10. -/
def c4OutBegin : OperationOutput :=
  { SourceAccount := "G1"
    type := 16
    ApplicationOrder := 1
    TransactionID := 42949677056
    OperationID := 42949677057
    OperationDetails :=
      { SponsoredID := "G5"
        Path := some []
        SetFlags := some []
        SetFlagsString := some []
        ClearFlags := some []
        ClearFlagsString := some [] } }

/-- The record produced for the payment operation of the sandwich at
ledger 10. -/
def c4OutPay : OperationOutput :=
  { SourceAccount := "G5"
    type := 1
    ApplicationOrder := 2
    TransactionID := 42949677056
    OperationID := 42949677058
    OperationDetails :=
      { From := "G5"
        To := "G9"
        Amount := ConvertStroopValueToReal 100
        AssetType := "native"
        Path := some []
        SetFlags := some []
        SetFlagsString := some []
        ClearFlags := some []
        ClearFlagsString := some [] } }

/-- The record produced for the begin-sponsoring operation at ledger 11. -/
def c4OutBegin11 : OperationOutput :=
  { c4OutBegin with
    TransactionID := 47244644352
    OperationID := 47244644353 }

/-- Witness for C4: all three ordering properties at concrete records of
the sponsorship sandwich transaction. -/
theorem C4_identifier_ordering_witness :
    c4OutBegin.OperationID < c4OutPay.OperationID ∧
    c4OutBegin.OperationID < c4OutBegin11.TransactionID ∧
    c4OutBegin.TransactionID < c4OutBegin.OperationID :=
  ⟨(C4_identifier_ordering.1 ⟨none, .beginSponsoringFutureReserves 5⟩
      ⟨some (sampleAcct 5), .payment (sampleAcct 9) .native 100⟩ 0 1
      (sandwichTx true) 10 c4OutBegin c4OutPay rfl rfl (by norm_num)),
   (C4_identifier_ordering.2.1 ⟨none, .beginSponsoringFutureReserves 5⟩
      ⟨none, .beginSponsoringFutureReserves 5⟩ 0 0
      (sandwichTx true) (sandwichTx true) 10 11 c4OutBegin c4OutBegin11
      rfl rfl (by norm_num) (by norm_num) (by norm_num)
      (by norm_num [sandwichTx]) (by norm_num) (by norm_num)).2.2.1,
   (C4_identifier_ordering.2.2 ⟨none, .beginSponsoringFutureReserves 5⟩ 0
      (sandwichTx true) 10 c4OutBegin rfl (by norm_num))⟩

/-! ## C5: unsupported operation type -/

/-- C5: an operation whose non-negative type tag is outside the handled
set makes `TransformOperation` fail with the unsupported-operation-type
error (given a renderable source address and an in-bounds results list —
the checks that precede the dispatch); no record accompanies the error. -/
theorem C5_unsupported_type (osrc : Option MuxedAccount) (tag : Int) (i : Int)
    (tx : LedgerTransaction) (ls : Int) (rs : List OperationResult) (addr : String)
    (htag : 0 ≤ tag)
    (haddr : GetAccountAddressFromMuxedAccount
      (getOperationSourceAccount ⟨osrc, .other tag⟩ tx) = .ok addr)
    (hres : tx.result.opResults = some rs)
    (hi : 0 ≤ i) (hlen : i.toNat < rs.length) :
    TransformOperation ⟨osrc, .other tag⟩ i tx ls =
      .error (.unsupportedOperationType tag) := by
  rw [transform_eq, extract_eq, haddr, hres]
  simp only [OperationBody.typeTag, detailsForBody, hi, List.getElem?_eq_getElem hlen,
    not_lt.mpr htag, if_true, if_false, ite_true, ite_false]

/-- A transaction holding one operation of the unhandled tag 24. -/
def c5Tx : LedgerTransaction :=
  { index := 1
    envelope := { sourceAccount := sampleAcct 1, operations := [⟨none, .other 24⟩] }
    result := { successful := true, opResults := some [sampleRes] } }

/-- Witness for C5 at tag 24 (outside the handled 0–21 range). -/
theorem C5_unsupported_type_witness :
    TransformOperation ⟨none, .other 24⟩ 0 c5Tx 10 =
      .error (.unsupportedOperationType 24) :=
  C5_unsupported_type none 24 0 c5Tx 10 [sampleRes] "G1"
    (by norm_num) rfl rfl (by norm_num) (by norm_num [c5Tx])

/-! ## C9: result-list requirement and unchecked indexing -/

/-- `GetAccountAddressFromMuxedAccount` only ever fails with the
address-decode error. -/
theorem getAddr_error (m : MuxedAccount) (e : OpError)
    (h : GetAccountAddressFromMuxedAccount m = .error e) :
    e = .addressDecode "could not decode address" := by
  unfold GetAccountAddressFromMuxedAccount at h
  split at h <;> simp_all

/-- `addLedgerKeyToDetails` only ever fails with the claimable-balance
marshalling error. -/
theorem addLedgerKey_error (d : Details) (k : LedgerKey) (e : OpError)
    (h : addLedgerKeyToDetails d k = .error e) :
    ∃ msg, e = .claimableBalanceKey msg := by
  unfold addLedgerKeyToDetails at h
  cases k <;> simp_all
  next bid =>
    rcases hm : marshalHexBalanceId bid with msg | hex <;> rw [hm] at h <;> simp_all
    exact ⟨msg, h.symm⟩

set_option maxHeartbeats 2000000 in
/-- No arm of the dispatcher produces the out-of-bounds panic: once the
per-operation result has been fetched, the panic branch is behind us. -/
theorem detailsForBody_ne_indexOOB (operation : Operation) (tx : LedgerTransaction)
    (i : Int) (sa : MuxedAccount) (saa : String) (r : OperationResult) :
    detailsForBody operation tx i sa saa r ≠ .error .indexOutOfBounds := by
  obtain ⟨osrc, body⟩ := operation
  unfold detailsForBody
  cases body <;> simp only [] <;>
    (repeat' split) <;>
      intro hcontra <;>
        (try cases hcontra) <;>
          first
            | ((repeat' split at hcontra) <;> simp_all)
            | (rename_i heq; (repeat' split at heq) <;> simp_all)
            | (rename_i heq; exact absurd (getAddr_error _ _ heq) (by simp))
            | (obtain ⟨msg, hmsg⟩ := addLedgerKey_error _ _ _ hcontra; cases hmsg)

/-- C9: for every operation kind and regardless of transaction success,
`extractOperationDetails` (1) fails when the per-operation results list is
absent; (2) never reaches the out-of-bounds panic when the results list is
longer than the operation index; and (3) hits exactly that panic when the
unchecked index is out of bounds. -/
theorem C9_result_indexing (op : Operation) (tx : LedgerTransaction) (i : Int) :
    (∀ addr, GetAccountAddressFromMuxedAccount (getOperationSourceAccount op tx) = .ok addr →
      tx.result.opResults = none →
      extractOperationDetails op tx i = .error .missingResults) ∧
    (∀ rs, tx.result.opResults = some rs → 0 ≤ i → i.toNat < rs.length →
      extractOperationDetails op tx i ≠ .error .indexOutOfBounds) ∧
    (∀ addr rs, GetAccountAddressFromMuxedAccount (getOperationSourceAccount op tx) = .ok addr →
      tx.result.opResults = some rs → rs.length ≤ i.toNat →
      extractOperationDetails op tx i = .error .indexOutOfBounds) := by
  refine ⟨?_, ?_, ?_⟩
  · intro addr haddr hres
    rw [extract_eq, haddr, hres]
  · intro rs hres hi hlen
    rw [extract_eq]
    rcases hsrc : GetAccountAddressFromMuxedAccount (getOperationSourceAccount op tx)
      with e | addr <;> simp only []
    · intro h
      obtain rfl := (Except.error.injEq _ _ |>.mp h)
      cases getAddr_error _ _ hsrc
    · rw [hres]
      simp only []
      rw [if_pos hi, List.getElem?_eq_getElem hlen]
      simp only []
      rcases hdb : detailsForBody op tx i (getOperationSourceAccount op tx) addr
          (rs.get ⟨i.toNat, hlen⟩) with e | od <;> simp only []
      · intro h
        obtain rfl := (Except.error.injEq _ _ |>.mp h)
        exact detailsForBody_ne_indexOOB _ _ _ _ _ _ hdb
      · intro h
        cases h
  · intro addr rs haddr hres hlen
    rw [extract_eq, haddr, hres]
    simp only []
    by_cases h0 : 0 ≤ i
    · rw [if_pos h0, List.getElem?_eq_none hlen]
    · rw [if_neg h0]

/-- A transaction whose result carries no per-operation results list. -/
def c9TxNoRes : LedgerTransaction :=
  { index := 1
    envelope := { sourceAccount := sampleAcct 1, operations := [c3Op] }
    result := { successful := false, opResults := none } }

/-- A transaction whose results list is empty (shorter than needed). -/
def c9TxEmpty : LedgerTransaction :=
  { index := 1
    envelope := { sourceAccount := sampleAcct 1, operations := [c3Op] }
    result := { successful := false, opResults := some [] } }

/-- Witness for C9: all three behaviours at concrete transactions. -/
theorem C9_result_indexing_witness :
    extractOperationDetails c3Op c9TxNoRes 0 = .error .missingResults ∧
    extractOperationDetails c3Op c3Tx 0 ≠ .error .indexOutOfBounds ∧
    extractOperationDetails c3Op c9TxEmpty 0 = .error .indexOutOfBounds :=
  ⟨(C9_result_indexing c3Op c9TxNoRes 0).1 "G1" rfl rfl,
   (C9_result_indexing c3Op c3Tx 0).2.1 [sampleRes] rfl (by norm_num) (by norm_num),
   (C9_result_indexing c3Op c9TxEmpty 0).2.2 "G1" [] rfl rfl (by norm_num)⟩

/-! ## C2: strict-receive source amount from execution result -/


/-- `addAssetDetailsToOperationDetails` never writes `SourceAmount`. -/
theorem addAsset_ok_SourceAmount (d d2 : Details) (a : Asset) (p : String)
    (h : addAssetDetailsToOperationDetails d a p = .ok d2) :
    d2.SourceAmount = d.SourceAmount := by
  unfold addAssetDetailsToOperationDetails at h
  (repeat' split at h) <;> (try cases h) <;> rfl

/-- Nor does its error-discarding wrapper. -/
theorem addAssetDiscard_SourceAmount (d : Details) (a : Asset) (p : String) :
    (addAssetDetailsDiscardingError d a p).SourceAmount = d.SourceAmount := by
  unfold addAssetDetailsDiscardingError
  split
  next d2 heq => exact addAsset_ok_SourceAmount _ _ _ _ heq
  next => rfl

/-- When asset extraction fails, the discarding call leaves the details
completely untouched. -/
theorem addAssetDiscard_of_error (d : Details) (a : Asset) (p : String) (msg : String)
    (h : a.extract = .error msg) : addAssetDetailsDiscardingError d a p = d := by
  unfold addAssetDetailsDiscardingError addAssetDetailsToOperationDetails
  rw [h]

/-- Filling the "source" asset slot leaves the unprefixed asset fields
untouched. -/
theorem addAsset_source_preserves_unprefixed (d d2 : Details) (a : Asset)
    (h : addAssetDetailsToOperationDetails d a "source" = .ok d2) :
    d2.AssetType = d.AssetType ∧ d2.AssetCode = d.AssetCode ∧
    d2.AssetIssuer = d.AssetIssuer := by
  unfold addAssetDetailsToOperationDetails at h
  rcases he : a.extract with e | t <;> rw [he] at h <;> simp only [] at h
  · cases h
  obtain ⟨assetType, code, issuer⟩ := t
  simp only [] at h
  obtain rfl := (Except.ok.injEq _ _ |>.mp h)
  exact ⟨rfl, rfl, rfl⟩



/-- `ensureSlicesAreNotNil` does not touch `SourceAmount`. -/
theorem ensure_SourceAmount (d : Details) :
    (ensureSlicesAreNotNil d).SourceAmount = d.SourceAmount := by
  rw [ensureSlices_eq]

/-- Inverting a successful strict-receive result lookup. -/
theorem getRecvResult_inv (trBody : OperationResultTr) (sa : Int)
    (h : trBody.getPathPaymentStrictReceiveResult = some sa) :
    trBody = .pathPaymentStrictReceiveResult sa := by
  cases trBody <;> simp_all [OperationResultTr.getPathPaymentStrictReceiveResult]

/-- C2: for a path-payment strict-receive operation: (1) on a successful
transaction a successful extraction implies the operation's execution
result held a strict-receive send amount and `source_amount` equals its
stroop conversion, for every declared send-max; (2) on a successful
transaction whose fetched result carries no strict-receive body, the
transform fails with the missing-execution-result errors; (3) on a failed
transaction `source_amount` stays at its zero default; and (4) on a failed
transaction the outcome does not depend on the contents of the results
list at all (no result lookup), only on its length. -/
theorem C2_strict_receive_source_amount :
    (∀ (osrc : Option MuxedAccount) (sendAsset : Asset) (sendMax : Int)
        (destination : MuxedAccount) (destAsset : Asset) (destAmount : Int)
        (path : List Asset) (tx : LedgerTransaction) (i : Int) (d : Details),
      tx.result.successful = true →
      extractOperationDetails
        ⟨osrc, .pathPaymentStrictReceive sendAsset sendMax destination destAsset destAmount path⟩
        tx i = .ok d →
      ∃ rs r sa, tx.result.opResults = some rs ∧
        (if 0 ≤ i then rs[i.toNat]? else none) = some r ∧
        r.tr = some (.pathPaymentStrictReceiveResult sa) ∧
        d.SourceAmount = ConvertStroopValueToReal sa) ∧
    (∀ (osrc : Option MuxedAccount) (sendAsset : Asset) (sendMax : Int)
        (destination : MuxedAccount) (destAsset : Asset) (destAmount : Int)
        (path : List Asset) (tx : LedgerTransaction) (i : Int)
        (rs : List OperationResult) (r : OperationResult) (saddr taddr : String),
      tx.result.successful = true →
      GetAccountAddressFromMuxedAccount (getOperationSourceAccount
        ⟨osrc, .pathPaymentStrictReceive sendAsset sendMax destination destAsset destAmount path⟩ tx) = .ok saddr →
      GetAccountAddressFromMuxedAccount destination = .ok taddr →
      tx.result.opResults = some rs →
      (if 0 ≤ i then rs[i.toNat]? else none) = some r →
      (∀ sa, r.tr ≠ some (.pathPaymentStrictReceiveResult sa)) →
      extractOperationDetails
        ⟨osrc, .pathPaymentStrictReceive sendAsset sendMax destination destAsset destAmount path⟩
        tx i = .error (.missingResultBody i) ∨
      extractOperationDetails
        ⟨osrc, .pathPaymentStrictReceive sendAsset sendMax destination destAsset destAmount path⟩
        tx i = .error (.missingStrictReceiveResult i)) ∧
    (∀ (osrc : Option MuxedAccount) (sendAsset : Asset) (sendMax : Int)
        (destination : MuxedAccount) (destAsset : Asset) (destAmount : Int)
        (path : List Asset) (tx : LedgerTransaction) (i : Int) (d : Details),
      tx.result.successful = false →
      extractOperationDetails
        ⟨osrc, .pathPaymentStrictReceive sendAsset sendMax destination destAsset destAmount path⟩
        tx i = .ok d →
      d.SourceAmount = 0) ∧
    (∀ (osrc : Option MuxedAccount) (sendAsset : Asset) (sendMax : Int)
        (destination : MuxedAccount) (destAsset : Asset) (destAmount : Int)
        (path : List Asset) (idx : Nat) (env : TransactionEnvelope) (i : Int)
        (rs rs' : List OperationResult),
      rs.length = rs'.length →
      extractOperationDetails
        ⟨osrc, .pathPaymentStrictReceive sendAsset sendMax destination destAsset destAmount path⟩
        ⟨idx, env, ⟨false, some rs⟩⟩ i =
      extractOperationDetails
        ⟨osrc, .pathPaymentStrictReceive sendAsset sendMax destination destAsset destAmount path⟩
        ⟨idx, env, ⟨false, some rs'⟩⟩ i) := by
  refine ⟨?_, ?_, ?_, ?_⟩
  · intro osrc sendAsset sendMax destination destAsset destAmount path tx i d htrue hok
    rw [extract_eq] at hok
    rcases hsrc : GetAccountAddressFromMuxedAccount (getOperationSourceAccount
        ⟨osrc, .pathPaymentStrictReceive sendAsset sendMax destination destAsset destAmount path⟩ tx)
      with e | saddr <;> rw [hsrc] at hok <;> simp only [] at hok
    · cases hok
    rcases hres : tx.result.opResults with _ | rs <;> rw [hres] at hok <;> simp only [] at hok
    · cases hok
    rcases hidx : (if 0 ≤ i then rs[i.toNat]? else none) with _ | r <;>
      rw [hidx] at hok <;> simp only [] at hok
    · cases hok
    simp only [detailsForBody] at hok
    rcases hdst : GetAccountAddressFromMuxedAccount destination with e | taddr <;>
      rw [hdst] at hok <;> simp only [] at hok
    · cases hok
    rw [htrue] at hok
    simp only [if_true] at hok
    rcases htr : r.tr with _ | trBody <;> rw [htr] at hok <;> simp only [] at hok
    · cases hok
    rcases hgr : trBody.getPathPaymentStrictReceiveResult with _ | sa <;>
      rw [hgr] at hok <;> simp only [] at hok
    · cases hok
    obtain rfl := (Except.ok.injEq _ _ |>.mp hok)
    refine ⟨rs, r, sa, rfl, hidx,
      by rw [getRecvResult_inv _ _ hgr] at htr; exact htr, ?_⟩
    rw [ensure_SourceAmount]
  · intro osrc sendAsset sendMax destination destAsset destAmount path tx i rs r saddr taddr
      htrue hsaddr hdst hres hidx hnores
    rw [extract_eq, hsaddr, hres]
    simp only []
    rw [hidx]
    simp only [detailsForBody]
    rw [hdst]
    simp only []
    rw [htrue]
    simp only [if_true]
    rcases htr : r.tr with _ | trBody
    · left
      rfl
    · simp only []
      rcases hgr : trBody.getPathPaymentStrictReceiveResult with _ | sa
      · right
        rfl
      · exact absurd (by rw [getRecvResult_inv _ _ hgr] at htr; exact htr) (hnores sa)
  · intro osrc sendAsset sendMax destination destAsset destAmount path tx i d hfalse hok
    rw [extract_eq] at hok
    rcases hsrc : GetAccountAddressFromMuxedAccount (getOperationSourceAccount
        ⟨osrc, .pathPaymentStrictReceive sendAsset sendMax destination destAsset destAmount path⟩ tx)
      with e | saddr <;> rw [hsrc] at hok <;> simp only [] at hok
    · cases hok
    rcases hres : tx.result.opResults with _ | rs <;> rw [hres] at hok <;> simp only [] at hok
    · cases hok
    rcases hidx : (if 0 ≤ i then rs[i.toNat]? else none) with _ | r <;>
      rw [hidx] at hok <;> simp only [] at hok
    · cases hok
    simp only [detailsForBody] at hok
    rcases hdst : GetAccountAddressFromMuxedAccount destination with e | taddr <;>
      rw [hdst] at hok <;> simp only [] at hok
    · cases hok
    rw [hfalse] at hok
    simp only [Bool.false_eq_true, if_false] at hok
    obtain rfl := (Except.ok.injEq _ _ |>.mp hok)
    rw [ensure_SourceAmount]
    simp [addAssetDiscard_SourceAmount]
  · intro osrc sendAsset sendMax destination destAsset destAmount path idx env i rs rs' hlen
    rw [extract_eq, extract_eq]
    simp only [getOperationSourceAccount]
    rcases hga : GetAccountAddressFromMuxedAccount
        (match osrc with
          | some sourceAccount => sourceAccount
          | none => TransactionEnvelope.sourceAccount env) with e | saddr <;>
      simp only []
    by_cases h0 : 0 ≤ i
    · rcases hidx : rs[i.toNat]? with _ | r
      · have hidx' : rs'[i.toNat]? = none := by
          rw [List.getElem?_eq_none_iff] at hidx ⊢
          rw [← hlen]
          exact hidx
        rw [if_pos h0, if_pos h0, hidx']
      · rcases hidx' : rs'[i.toNat]? with _ | r'
        · exfalso
          rw [List.getElem?_eq_none_iff, ← hlen, ← List.getElem?_eq_none_iff] at hidx'
          rw [hidx'] at hidx
          cases hidx
        · rw [if_pos h0, if_pos h0]
          rfl
    · rw [if_neg h0, if_neg h0]


/-- The strict-receive operation of the C2 witness: declared send-max
1000000000 stroops, destination amount 20 stroops, empty path. -/
def c2Op : Operation :=
  ⟨none, .pathPaymentStrictReceive .native 1000000000 (sampleAcct 9) .native 20 []⟩

/-- An execution result with actual send amount 425000000 stroops (42.5). -/
def c2Res : OperationResult := ⟨some (.pathPaymentStrictReceiveResult 425000000)⟩

/-- Single-operation transaction around `c2Op`. -/
def c2Tx (succ : Bool) : LedgerTransaction :=
  { index := 1
    envelope := { sourceAccount := sampleAcct 1, operations := [c2Op] }
    result := { successful := succ, opResults := some [c2Res] } }

/-- The record extracted from `c2Op` on the successful transaction. -/
def c2DetailsS : Details :=
  { From := "G1"
    To := "G9"
    Amount := ConvertStroopValueToReal 20
    SourceMax := ConvertStroopValueToReal 1000000000
    AssetType := "native"
    SourceAssetType := "native"
    SourceAmount := ConvertStroopValueToReal 425000000
    Path := some []
    SetFlags := some []
    SetFlagsString := some []
    ClearFlags := some []
    ClearFlagsString := some [] }

/-- The record extracted from `c2Op` on the failed transaction. -/
def c2DetailsF : Details :=
  { From := "G1"
    To := "G9"
    Amount := ConvertStroopValueToReal 20
    SourceMax := ConvertStroopValueToReal 1000000000
    AssetType := "native"
    SourceAssetType := "native"
    Path := some []
    SetFlags := some []
    SetFlagsString := some []
    ClearFlags := some []
    ClearFlagsString := some [] }

/-- Witness for C2: on success `source_amount` is the result's 42.5 (in
stroops, 425000000) regardless of the declared send-max; on failure it is
zero. -/
theorem C2_strict_receive_source_amount_witness :
    (∃ rs r sa, (c2Tx true).result.opResults = some rs ∧
      (if (0 : Int) ≤ 0 then rs[(0 : Int).toNat]? else none) = some r ∧
      r.tr = some (.pathPaymentStrictReceiveResult sa) ∧
      c2DetailsS.SourceAmount = ConvertStroopValueToReal sa) ∧
    c2DetailsF.SourceAmount = 0 :=
  ⟨C2_strict_receive_source_amount.1 none .native 1000000000 (sampleAcct 9) .native 20 []
      (c2Tx true) 0 c2DetailsS rfl rfl,
   C2_strict_receive_source_amount.2.2.1 none .native 1000000000 (sampleAcct 9) .native 20 []
      (c2Tx false) 0 c2DetailsF rfl rfl⟩

/-! ## C6: flag decomposition -/


/-- The fixed ordered account-flag enumeration (spec-side description):
auth_required (1), auth_revocable (2), auth_immutable (4). -/
def accountFlagBits : List (Int × String) :=
  [(1, "auth_required"), (2, "auth_revocable"), (4, "auth_immutable")]

/-- The fixed ordered trustline-flag enumeration (spec-side description):
authorized (1), authorized_to_maintain_liabilities (2),
clawback_enabled (4). -/
def trustLineFlagBits : List (Int × String) :=
  [(1, "authorized"), (2, "authorized_to_maintain_liabilities"), (4, "clawback_enabled")]

/-- The bits of `flag` that are set, in enumeration order (spec-side
description of the expected decomposition). -/
def setBits (table : List (Int × String)) (flag : Nat) : List (Int × String) :=
  table.filter (fun p => flag &&& p.1.toNat ≠ 0)

/-- C6: flag decomposition emits the numeric and name sequences of exactly
the set bits of the mask, in the fixed enumeration order, omitting unset
bits, for both the account-flag helper and the trustline-flag helper and
for both the "set" and "clear" slots; the two sequences always have equal
length; and the mask combining auth_revocable (2) and auth_immutable (4)
yields exactly ["auth_revocable", "auth_immutable"] in that order. -/
theorem C6_flag_decomposition :
    (∀ (d : Details) (flag : Nat),
      (addOperationFlagToOperationDetails d flag "set").SetFlags =
        some ((setBits accountFlagBits flag).map Prod.fst) ∧
      (addOperationFlagToOperationDetails d flag "set").SetFlagsString =
        some ((setBits accountFlagBits flag).map Prod.snd) ∧
      (addOperationFlagToOperationDetails d flag "clear").ClearFlags =
        some ((setBits accountFlagBits flag).map Prod.fst) ∧
      (addOperationFlagToOperationDetails d flag "clear").ClearFlagsString =
        some ((setBits accountFlagBits flag).map Prod.snd)) ∧
    (∀ (d : Details) (flag : Nat),
      (addTrustLineFlagToDetails d flag "set").SetFlags.getD [] =
        (setBits trustLineFlagBits flag).map Prod.fst ∧
      (addTrustLineFlagToDetails d flag "set").SetFlagsString.getD [] =
        (setBits trustLineFlagBits flag).map Prod.snd ∧
      (addTrustLineFlagToDetails d flag "clear").ClearFlags.getD [] =
        (setBits trustLineFlagBits flag).map Prod.fst ∧
      (addTrustLineFlagToDetails d flag "clear").ClearFlagsString.getD [] =
        (setBits trustLineFlagBits flag).map Prod.snd) ∧
    (∀ (d : Details) (flag : Nat),
      ((addOperationFlagToOperationDetails d flag "set").SetFlags.getD []).length =
        ((addOperationFlagToOperationDetails d flag "set").SetFlagsString.getD []).length ∧
      ((addTrustLineFlagToDetails d flag "set").SetFlags.getD []).length =
        ((addTrustLineFlagToDetails d flag "set").SetFlagsString.getD []).length) ∧
    (∀ d : Details,
      (addOperationFlagToOperationDetails d 6 "set").SetFlagsString =
        some ["auth_revocable", "auth_immutable"]) := by
  have haccount : ∀ (d : Details) (flag : Nat),
      (addOperationFlagToOperationDetails d flag "set").SetFlags =
        some ((setBits accountFlagBits flag).map Prod.fst) ∧
      (addOperationFlagToOperationDetails d flag "set").SetFlagsString =
        some ((setBits accountFlagBits flag).map Prod.snd) ∧
      (addOperationFlagToOperationDetails d flag "clear").ClearFlags =
        some ((setBits accountFlagBits flag).map Prod.fst) ∧
      (addOperationFlagToOperationDetails d flag "clear").ClearFlagsString =
        some ((setBits accountFlagBits flag).map Prod.snd) := by
    intro d flag
    rcases Nat.mod_two_eq_zero_or_one flag with h1 | h1 <;>
      by_cases h2 : flag &&& 2 = 0 <;> by_cases h4 : flag &&& 4 = 0 <;>
        simp [addOperationFlagToOperationDetails, setBits, accountFlagBits,
          goAppend, Nat.and_one_is_mod, h1, h2, h4, List.filter]
  have htrust : ∀ (d : Details) (flag : Nat),
      (addTrustLineFlagToDetails d flag "set").SetFlags.getD [] =
        (setBits trustLineFlagBits flag).map Prod.fst ∧
      (addTrustLineFlagToDetails d flag "set").SetFlagsString.getD [] =
        (setBits trustLineFlagBits flag).map Prod.snd ∧
      (addTrustLineFlagToDetails d flag "clear").ClearFlags.getD [] =
        (setBits trustLineFlagBits flag).map Prod.fst ∧
      (addTrustLineFlagToDetails d flag "clear").ClearFlagsString.getD [] =
        (setBits trustLineFlagBits flag).map Prod.snd := by
    intro d flag
    rcases Nat.mod_two_eq_zero_or_one flag with h1 | h1 <;>
      by_cases h2 : flag &&& 2 = 0 <;> by_cases h4 : flag &&& 4 = 0 <;>
        simp [addTrustLineFlagToDetails, setBits, trustLineFlagBits,
          isAuthorized, isAuthorizedToMaintainLiabilitiesFlag, isClawbackEnabledFlag,
          goAppend, Nat.and_one_is_mod, h1, h2, h4, List.filter]
  refine ⟨haccount, htrust, fun d flag => ?_, fun d => ?_⟩
  · obtain ⟨hsf, hss, -, -⟩ := haccount d flag
    obtain ⟨tsf, tss, -, -⟩ := htrust d flag
    rw [hsf, hss, tsf, tss]
    simp
  · obtain ⟨-, hss, -, -⟩ := haccount d 6
    rw [hss]
    rfl


/-! ## C7: path normalization -/


/-- The path entry obtained from one successfully-extracted asset
(spec-side description of the expected verbatim mapping). -/
def extractedPathEntry (a : Asset) : Path :=
  match a.extract with
  | .ok t => { AssetType := t.1, AssetIssuer := t.2.2, AssetCode := t.2.1 }
  | .error _ => { AssetType := "", AssetIssuer := "", AssetCode := "" }

/-- When every asset extracts, the path loop appends the extracted
triplets in order. -/
theorem transformPathLoop_ok : ∀ (assets : List Asset) (acc : List Path),
    (∀ a ∈ assets, ∃ t, a.extract = .ok t) →
    transformPathLoop assets acc = some (acc ++ assets.map extractedPathEntry)
  | [], acc, _ => by simp [transformPathLoop]
  | a :: rest, acc, h => by
      obtain ⟨t, ht⟩ := h a (by simp)
      obtain ⟨t1, t2, t3⟩ := t
      unfold transformPathLoop
      rw [ht]
      simp only []
      rw [transformPathLoop_ok rest _ (fun x hx => h x (by simp [hx]))]
      simp [extractedPathEntry, ht]

/-- `ensureSlicesAreNotNil` turns the path into its present form. -/
theorem ensure_Path (d : Details) :
    (ensureSlicesAreNotNil d).Path = some (d.Path.getD []) := by
  rw [ensureSlices_eq]

/-- C7 (amended): for both path-payment kinds, provided every asset in the
input path extracts successfully, a successful extraction returns the
intermediate asset sequence verbatim — same length and order, each entry
the (type, code, issuer) of the corresponding input asset — and an empty
input path yields an empty, present path.  (The amendment is forced by the
counterexample: when some path asset fails to extract, the whole path is
dropped and the record carries an empty path instead.) -/
theorem C7_path_verbatim :
    (∀ (osrc : Option MuxedAccount) (sendAsset : Asset) (sendMax : Int)
        (destination : MuxedAccount) (destAsset : Asset) (destAmount : Int)
        (path : List Asset) (tx : LedgerTransaction) (i : Int) (d : Details),
      (∀ a ∈ path, ∃ t, a.extract = .ok t) →
      extractOperationDetails
        ⟨osrc, .pathPaymentStrictReceive sendAsset sendMax destination destAsset destAmount path⟩
        tx i = .ok d →
      d.Path = some (path.map extractedPathEntry)) ∧
    (∀ (osrc : Option MuxedAccount) (sendAsset : Asset) (sendAmount : Int)
        (destination : MuxedAccount) (destAsset : Asset) (destMin : Int)
        (path : List Asset) (tx : LedgerTransaction) (i : Int) (d : Details),
      (∀ a ∈ path, ∃ t, a.extract = .ok t) →
      extractOperationDetails
        ⟨osrc, .pathPaymentStrictSend sendAsset sendAmount destination destAsset destMin path⟩
        tx i = .ok d →
      d.Path = some (path.map extractedPathEntry)) := by
  constructor
  · intro osrc sendAsset sendMax destination destAsset destAmount path tx i d hpath hok
    rw [extract_eq] at hok
    rcases hsrc : GetAccountAddressFromMuxedAccount (getOperationSourceAccount
        ⟨osrc, .pathPaymentStrictReceive sendAsset sendMax destination destAsset destAmount path⟩ tx)
      with e | saddr <;> rw [hsrc] at hok <;> simp only [] at hok
    · cases hok
    rcases hres : tx.result.opResults with _ | rs <;> rw [hres] at hok <;> simp only [] at hok
    · cases hok
    rcases hidx : (if 0 ≤ i then rs[i.toNat]? else none) with _ | r <;>
      rw [hidx] at hok <;> simp only [] at hok
    · cases hok
    simp only [detailsForBody] at hok
    rcases hdst : GetAccountAddressFromMuxedAccount destination with e | taddr <;>
      rw [hdst] at hok <;> simp only [] at hok
    · cases hok
    rcases hsucc : tx.result.successful with _ | _ <;> rw [hsucc] at hok
    · simp only [Bool.false_eq_true, if_false] at hok
      obtain rfl := (Except.ok.injEq _ _ |>.mp hok)
      rw [ensure_Path]
      rcases path with _ | ⟨a, rest⟩
      · simp [transformPath]
      · simp only [transformPath, List.length_cons]
        rw [if_neg (by simp)]
        rw [transformPathLoop_ok _ _ hpath]
        simp
    · simp only [if_true] at hok
      rcases htr : r.tr with _ | trBody <;> rw [htr] at hok <;> simp only [] at hok
      · cases hok
      rcases hgr : trBody.getPathPaymentStrictReceiveResult with _ | sa <;>
        rw [hgr] at hok <;> simp only [] at hok
      · cases hok
      obtain rfl := (Except.ok.injEq _ _ |>.mp hok)
      rw [ensure_Path]
      rcases path with _ | ⟨a, rest⟩
      · simp [transformPath]
      · simp only [transformPath, List.length_cons]
        rw [if_neg (by simp)]
        rw [transformPathLoop_ok _ _ hpath]
        simp
  · intro osrc sendAsset sendAmount destination destAsset destMin path tx i d hpath hok
    rw [extract_eq] at hok
    rcases hsrc : GetAccountAddressFromMuxedAccount (getOperationSourceAccount
        ⟨osrc, .pathPaymentStrictSend sendAsset sendAmount destination destAsset destMin path⟩ tx)
      with e | saddr <;> rw [hsrc] at hok <;> simp only [] at hok
    · cases hok
    rcases hres : tx.result.opResults with _ | rs <;> rw [hres] at hok <;> simp only [] at hok
    · cases hok
    rcases hidx : (if 0 ≤ i then rs[i.toNat]? else none) with _ | r <;>
      rw [hidx] at hok <;> simp only [] at hok
    · cases hok
    simp only [detailsForBody] at hok
    rcases hdst : GetAccountAddressFromMuxedAccount destination with e | taddr <;>
      rw [hdst] at hok <;> simp only [] at hok
    · cases hok
    rcases hsucc : tx.result.successful with _ | _ <;> rw [hsucc] at hok
    · simp only [Bool.false_eq_true, if_false] at hok
      obtain rfl := (Except.ok.injEq _ _ |>.mp hok)
      rw [ensure_Path]
      rcases path with _ | ⟨a, rest⟩
      · simp [transformPath]
      · simp only [transformPath, List.length_cons]
        rw [if_neg (by simp)]
        rw [transformPathLoop_ok _ _ hpath]
        simp
    · simp only [if_true] at hok
      rcases htr : r.tr with _ | trBody <;> rw [htr] at hok <;> simp only [] at hok
      · cases hok
      rcases hgr : trBody.getPathPaymentStrictSendResult with _ | sa <;>
        rw [hgr] at hok <;> simp only [] at hok
      · cases hok
      obtain rfl := (Except.ok.injEq _ _ |>.mp hok)
      rw [ensure_Path]
      rcases path with _ | ⟨a, rest⟩
      · simp [transformPath]
      · simp only [transformPath, List.length_cons]
        rw [if_neg (by simp)]
        rw [transformPathLoop_ok _ _ hpath]
        simp

/-- A one-element path whose asset fails extraction. -/
def c7Path : List Asset := [.invalid 99]

/-- Strict-receive operation carrying `c7Path`. -/
def c7Op : Operation :=
  ⟨none, .pathPaymentStrictReceive .native 10 (sampleAcct 9) .native 20 c7Path⟩

/-- Failed single-operation transaction around `c7Op`. -/
def c7Tx : LedgerTransaction :=
  { index := 1
    envelope := { sourceAccount := sampleAcct 1, operations := [c7Op] }
    result := { successful := false, opResults := some [sampleRes] } }

/-- The record extracted from `c7Op`: its path is empty. -/
def c7Details : Details :=
  { From := "G1"
    To := "G9"
    Amount := ConvertStroopValueToReal 20
    SourceMax := ConvertStroopValueToReal 10
    AssetType := "native"
    SourceAssetType := "native"
    Path := some []
    SetFlags := some []
    SetFlagsString := some []
    ClearFlags := some []
    ClearFlagsString := some [] }

/-- C7 counterexample: the claim "the output path has the same length and
order as the input path" fails on a path containing a malformed asset —
the input path has length 1, the extraction succeeds, and the output path
has length 0. -/
theorem C7_path_counterexample :
    c7Path.length = 1 ∧
    extractOperationDetails c7Op c7Tx 0 = .ok c7Details ∧
    (c7Details.Path.getD []).length = 0 :=
  ⟨rfl, rfl, rfl⟩


/-- Strict-receive operation with a one-element well-formed path. -/
def c7GoodOp : Operation :=
  ⟨none, .pathPaymentStrictReceive .native 10 (sampleAcct 9) .native 20 [.alphanum4 "USD" 7]⟩

/-- Failed single-operation transaction around `c7GoodOp`. -/
def c7GoodTx : LedgerTransaction :=
  { index := 1
    envelope := { sourceAccount := sampleAcct 1, operations := [c7GoodOp] }
    result := { successful := false, opResults := some [sampleRes] } }

/-- The record extracted from `c7GoodOp`: the path is carried verbatim. -/
def c7GoodDetails : Details :=
  { From := "G1"
    To := "G9"
    Amount := ConvertStroopValueToReal 20
    SourceMax := ConvertStroopValueToReal 10
    AssetType := "native"
    SourceAssetType := "native"
    Path := some [{ AssetType := "credit_alphanum4", AssetIssuer := "G7", AssetCode := "USD" }]
    SetFlags := some []
    SetFlagsString := some []
    ClearFlags := some []
    ClearFlagsString := some [] }

/-- Witness for the amended C7 at a concrete one-element well-formed path. -/
theorem C7_path_verbatim_witness :
    c7GoodDetails.Path = some ([Asset.alphanum4 "USD" 7].map extractedPathEntry) :=
  C7_path_verbatim.1 none .native 10 (sampleAcct 9) .native 20 [.alphanum4 "USD" 7]
    c7GoodTx 0 c7GoodDetails
    (by
      rintro a ha
      simp only [List.mem_singleton] at ha
      subst ha
      exact ⟨_, rfl⟩)
    rfl

/-! ## C10: asset-extraction error handling per arm -/


/-- Filling the "source" asset slot leaves the unprefixed slot untouched. -/
theorem addAsset_source_ok_unprefixed (d d2 : Details) (a : Asset)
    (h : addAssetDetailsToOperationDetails d a "source" = .ok d2) :
    d2.AssetType = d.AssetType ∧ d2.AssetCode = d.AssetCode ∧
    d2.AssetIssuer = d.AssetIssuer := by
  unfold addAssetDetailsToOperationDetails at h
  rcases he : a.extract with e | t <;> rw [he] at h <;> simp only [] at h
  · cases h
  obtain ⟨assetType, code, issuer⟩ := t
  simp only [] at h
  obtain rfl := (Except.ok.injEq _ _ |>.mp h)
  exact ⟨rfl, rfl, rfl⟩

/-- Filling the unprefixed asset slot leaves the "source" slot untouched. -/
theorem addAsset_default_ok_source (d d2 : Details) (a : Asset)
    (h : addAssetDetailsToOperationDetails d a "" = .ok d2) :
    d2.SourceAssetType = d.SourceAssetType ∧ d2.SourceAssetCode = d.SourceAssetCode ∧
    d2.SourceAssetIssuer = d.SourceAssetIssuer := by
  unfold addAssetDetailsToOperationDetails at h
  rcases he : a.extract with e | t <;> rw [he] at h <;> simp only [] at h
  · cases h
  obtain ⟨assetType, code, issuer⟩ := t
  simp only [] at h
  obtain rfl := (Except.ok.injEq _ _ |>.mp h)
  exact ⟨rfl, rfl, rfl⟩

/-- Filling the "selling" asset slot leaves the "buying" slot untouched. -/
theorem addAsset_selling_ok_buying (d d2 : Details) (a : Asset)
    (h : addAssetDetailsToOperationDetails d a "selling" = .ok d2) :
    d2.BuyingAssetType = d.BuyingAssetType ∧ d2.BuyingAssetCode = d.BuyingAssetCode ∧
    d2.BuyingAssetIssuer = d.BuyingAssetIssuer := by
  unfold addAssetDetailsToOperationDetails at h
  rcases he : a.extract with e | t <;> rw [he] at h <;> simp only [] at h
  · cases h
  obtain ⟨assetType, code, issuer⟩ := t
  simp only [] at h
  obtain rfl := (Except.ok.injEq _ _ |>.mp h)
  exact ⟨rfl, rfl, rfl⟩

/-- Filling the "buying" asset slot leaves the "selling" slot untouched. -/
theorem addAsset_buying_ok_selling (d d2 : Details) (a : Asset)
    (h : addAssetDetailsToOperationDetails d a "buying" = .ok d2) :
    d2.SellingAssetType = d.SellingAssetType ∧ d2.SellingAssetCode = d.SellingAssetCode ∧
    d2.SellingAssetIssuer = d.SellingAssetIssuer := by
  unfold addAssetDetailsToOperationDetails at h
  rcases he : a.extract with e | t <;> rw [he] at h <;> simp only [] at h
  · cases h
  obtain ⟨assetType, code, issuer⟩ := t
  simp only [] at h
  obtain rfl := (Except.ok.injEq _ _ |>.mp h)
  exact ⟨rfl, rfl, rfl⟩

/-- Discarding wrapper version: "source" slot writes spare the unprefixed slot. -/
theorem discard_source_unprefixed (d : Details) (a : Asset) :
    (addAssetDetailsDiscardingError d a "source").AssetType = d.AssetType ∧
    (addAssetDetailsDiscardingError d a "source").AssetCode = d.AssetCode ∧
    (addAssetDetailsDiscardingError d a "source").AssetIssuer = d.AssetIssuer := by
  unfold addAssetDetailsDiscardingError
  split
  next d2 heq => exact addAsset_source_ok_unprefixed _ _ _ heq
  next => exact ⟨rfl, rfl, rfl⟩

/-- Discarding wrapper version: unprefixed slot writes spare the "source" slot. -/
theorem discard_default_source (d : Details) (a : Asset) :
    (addAssetDetailsDiscardingError d a "").SourceAssetType = d.SourceAssetType ∧
    (addAssetDetailsDiscardingError d a "").SourceAssetCode = d.SourceAssetCode ∧
    (addAssetDetailsDiscardingError d a "").SourceAssetIssuer = d.SourceAssetIssuer := by
  unfold addAssetDetailsDiscardingError
  split
  next d2 heq => exact addAsset_default_ok_source _ _ _ heq
  next => exact ⟨rfl, rfl, rfl⟩

/-- Discarding wrapper version: "selling" slot writes spare the "buying" slot. -/
theorem discard_selling_buying (d : Details) (a : Asset) :
    (addAssetDetailsDiscardingError d a "selling").BuyingAssetType = d.BuyingAssetType ∧
    (addAssetDetailsDiscardingError d a "selling").BuyingAssetCode = d.BuyingAssetCode ∧
    (addAssetDetailsDiscardingError d a "selling").BuyingAssetIssuer = d.BuyingAssetIssuer := by
  unfold addAssetDetailsDiscardingError
  split
  next d2 heq => exact addAsset_selling_ok_buying _ _ _ heq
  next => exact ⟨rfl, rfl, rfl⟩

/-- Discarding wrapper version: "buying" slot writes spare the "selling" slot. -/
theorem discard_buying_selling (d : Details) (a : Asset) :
    (addAssetDetailsDiscardingError d a "buying").SellingAssetType = d.SellingAssetType ∧
    (addAssetDetailsDiscardingError d a "buying").SellingAssetCode = d.SellingAssetCode ∧
    (addAssetDetailsDiscardingError d a "buying").SellingAssetIssuer = d.SellingAssetIssuer := by
  unfold addAssetDetailsDiscardingError
  split
  next d2 heq => exact addAsset_buying_ok_selling _ _ _ heq
  next => exact ⟨rfl, rfl, rfl⟩

/-- `ensureSlicesAreNotNil` touches none of the twelve asset-slot fields. -/
theorem ensure_asset_slots (d : Details) :
    (ensureSlicesAreNotNil d).AssetType = d.AssetType ∧
    (ensureSlicesAreNotNil d).AssetCode = d.AssetCode ∧
    (ensureSlicesAreNotNil d).AssetIssuer = d.AssetIssuer ∧
    (ensureSlicesAreNotNil d).SourceAssetType = d.SourceAssetType ∧
    (ensureSlicesAreNotNil d).SourceAssetCode = d.SourceAssetCode ∧
    (ensureSlicesAreNotNil d).SourceAssetIssuer = d.SourceAssetIssuer ∧
    (ensureSlicesAreNotNil d).BuyingAssetType = d.BuyingAssetType ∧
    (ensureSlicesAreNotNil d).BuyingAssetCode = d.BuyingAssetCode ∧
    (ensureSlicesAreNotNil d).BuyingAssetIssuer = d.BuyingAssetIssuer ∧
    (ensureSlicesAreNotNil d).SellingAssetType = d.SellingAssetType ∧
    (ensureSlicesAreNotNil d).SellingAssetCode = d.SellingAssetCode ∧
    (ensureSlicesAreNotNil d).SellingAssetIssuer = d.SellingAssetIssuer := by
  rw [ensureSlices_eq]
  exact ⟨rfl, rfl, rfl, rfl, rfl, rfl, rfl, rfl, rfl, rfl, rfl, rfl⟩

end StellarEtl

namespace StellarEtl

/-- C10: asset-extraction failures are not uniformly fatal.  For any asset
whose extraction fails: (1) `addAssetDetailsToOperationDetails` propagates
exactly that error; (2) in the payment arm the failure aborts the whole
extraction with the asset error; (3)–(7) in the strict-receive,
strict-send, manage-sell-offer, manage-buy-offer and create-passive-offer
arms the error is discarded: extraction succeeds and the corresponding
asset-slot fields stay at their zero values (empty strings). -/
theorem C10_asset_error_handling (asset : Asset) (msg : String)
    (hext : asset.extract = .error msg) :
    (∀ (d : Details) (pfx : String),
      addAssetDetailsToOperationDetails d asset pfx = .error msg) ∧
    (∀ (osrc : Option MuxedAccount) (destination : MuxedAccount) (amount : Int)
        (tx : LedgerTransaction) (i : Int) (saddr taddr : String)
        (rs : List OperationResult) (r : OperationResult),
      GetAccountAddressFromMuxedAccount
        (getOperationSourceAccount ⟨osrc, .payment destination asset amount⟩ tx) = .ok saddr →
      GetAccountAddressFromMuxedAccount destination = .ok taddr →
      tx.result.opResults = some rs →
      (if 0 ≤ i then rs[i.toNat]? else none) = some r →
      extractOperationDetails ⟨osrc, .payment destination asset amount⟩ tx i =
        .error (.assetExtract msg)) ∧
    (∀ (osrc : Option MuxedAccount) (sendAsset : Asset) (sendMax : Int)
        (destination : MuxedAccount) (destAmount : Int) (path : List Asset)
        (tx : LedgerTransaction) (i : Int) (saddr taddr : String)
        (rs : List OperationResult) (r : OperationResult),
      GetAccountAddressFromMuxedAccount (getOperationSourceAccount
        ⟨osrc, .pathPaymentStrictReceive sendAsset sendMax destination asset destAmount path⟩ tx) = .ok saddr →
      GetAccountAddressFromMuxedAccount destination = .ok taddr →
      tx.result.opResults = some rs →
      (if 0 ≤ i then rs[i.toNat]? else none) = some r →
      tx.result.successful = false →
      ∃ d, extractOperationDetails
          ⟨osrc, .pathPaymentStrictReceive sendAsset sendMax destination asset destAmount path⟩
          tx i = .ok d ∧
        d.AssetType = "" ∧ d.AssetCode = "" ∧ d.AssetIssuer = "") ∧
    (∀ (osrc : Option MuxedAccount) (sendAmount : Int)
        (destination : MuxedAccount) (destAsset : Asset) (destMin : Int) (path : List Asset)
        (tx : LedgerTransaction) (i : Int) (saddr taddr : String)
        (rs : List OperationResult) (r : OperationResult),
      GetAccountAddressFromMuxedAccount (getOperationSourceAccount
        ⟨osrc, .pathPaymentStrictSend asset sendAmount destination destAsset destMin path⟩ tx) = .ok saddr →
      GetAccountAddressFromMuxedAccount destination = .ok taddr →
      tx.result.opResults = some rs →
      (if 0 ≤ i then rs[i.toNat]? else none) = some r →
      tx.result.successful = false →
      ∃ d, extractOperationDetails
          ⟨osrc, .pathPaymentStrictSend asset sendAmount destination destAsset destMin path⟩
          tx i = .ok d ∧
        d.SourceAssetType = "" ∧ d.SourceAssetCode = "" ∧ d.SourceAssetIssuer = "") ∧
    (∀ (osrc : Option MuxedAccount) (selling : Asset) (amount priceN priceD offerId : Int)
        (tx : LedgerTransaction) (i : Int) (saddr : String)
        (rs : List OperationResult) (r : OperationResult),
      GetAccountAddressFromMuxedAccount (getOperationSourceAccount
        ⟨osrc, .manageSellOffer selling asset amount priceN priceD offerId⟩ tx) = .ok saddr →
      tx.result.opResults = some rs →
      (if 0 ≤ i then rs[i.toNat]? else none) = some r →
      ∃ d, extractOperationDetails
          ⟨osrc, .manageSellOffer selling asset amount priceN priceD offerId⟩ tx i = .ok d ∧
        d.BuyingAssetType = "" ∧ d.BuyingAssetCode = "" ∧ d.BuyingAssetIssuer = "") ∧
    (∀ (osrc : Option MuxedAccount) (buying : Asset) (buyAmount priceN priceD offerId : Int)
        (tx : LedgerTransaction) (i : Int) (saddr : String)
        (rs : List OperationResult) (r : OperationResult),
      GetAccountAddressFromMuxedAccount (getOperationSourceAccount
        ⟨osrc, .manageBuyOffer asset buying buyAmount priceN priceD offerId⟩ tx) = .ok saddr →
      tx.result.opResults = some rs →
      (if 0 ≤ i then rs[i.toNat]? else none) = some r →
      ∃ d, extractOperationDetails
          ⟨osrc, .manageBuyOffer asset buying buyAmount priceN priceD offerId⟩ tx i = .ok d ∧
        d.SellingAssetType = "" ∧ d.SellingAssetCode = "" ∧ d.SellingAssetIssuer = "") ∧
    (∀ (osrc : Option MuxedAccount) (selling : Asset) (amount priceN priceD : Int)
        (tx : LedgerTransaction) (i : Int) (saddr : String)
        (rs : List OperationResult) (r : OperationResult),
      GetAccountAddressFromMuxedAccount (getOperationSourceAccount
        ⟨osrc, .createPassiveSellOffer selling asset amount priceN priceD⟩ tx) = .ok saddr →
      tx.result.opResults = some rs →
      (if 0 ≤ i then rs[i.toNat]? else none) = some r →
      ∃ d, extractOperationDetails
          ⟨osrc, .createPassiveSellOffer selling asset amount priceN priceD⟩ tx i = .ok d ∧
        d.BuyingAssetType = "" ∧ d.BuyingAssetCode = "" ∧ d.BuyingAssetIssuer = "") := by
  have hprop : ∀ (d : Details) (pfx : String),
      addAssetDetailsToOperationDetails d asset pfx = .error msg := by
    intro d pfx
    unfold addAssetDetailsToOperationDetails
    rw [hext]
  have hdisc : ∀ (d : Details) (pfx : String),
      addAssetDetailsDiscardingError d asset pfx = d := fun d pfx =>
    addAssetDiscard_of_error d asset pfx msg hext
  refine ⟨hprop, ?_, ?_, ?_, ?_, ?_, ?_⟩
  · intro osrc destination amount tx i saddr taddr rs r hsaddr hdst hres hidx
    rw [extract_eq, hsaddr, hres]
    simp only []
    rw [hidx]
    simp only [detailsForBody]
    rw [hdst]
    simp only []
    rw [hprop]
  · intro osrc sendAsset sendMax destination destAmount path tx i saddr taddr rs r
      hsaddr hdst hres hidx hfail
    rw [extract_eq, hsaddr, hres]
    simp only []
    rw [hidx]
    simp only [detailsForBody]
    rw [hdst]
    simp only []
    rw [hfail]
    simp only [Bool.false_eq_true, if_false]
    refine ⟨_, rfl, ?_, ?_, ?_⟩ <;>
      simp only [ensure_asset_slots, discard_source_unprefixed, hdisc]
  · intro osrc sendAmount destination destAsset destMin path tx i saddr taddr rs r
      hsaddr hdst hres hidx hfail
    rw [extract_eq, hsaddr, hres]
    simp only []
    rw [hidx]
    simp only [detailsForBody]
    rw [hdst]
    simp only []
    rw [hfail]
    simp only [Bool.false_eq_true, if_false]
    refine ⟨_, rfl, ?_, ?_, ?_⟩ <;>
      simp only [ensure_asset_slots, hdisc, discard_default_source]
  · intro osrc selling amount priceN priceD offerId tx i saddr rs r hsaddr hres hidx
    rw [extract_eq, hsaddr, hres]
    simp only []
    rw [hidx]
    simp only [detailsForBody]
    refine ⟨_, rfl, ?_, ?_, ?_⟩ <;>
      simp only [ensure_asset_slots, discard_selling_buying, hdisc]
  · intro osrc buying buyAmount priceN priceD offerId tx i saddr rs r hsaddr hres hidx
    rw [extract_eq, hsaddr, hres]
    simp only []
    rw [hidx]
    simp only [detailsForBody]
    refine ⟨_, rfl, ?_, ?_, ?_⟩ <;>
      simp only [ensure_asset_slots, hdisc, discard_buying_selling]
  · intro osrc selling amount priceN priceD tx i saddr rs r hsaddr hres hidx
    rw [extract_eq, hsaddr, hres]
    simp only []
    rw [hidx]
    simp only [detailsForBody]
    refine ⟨_, rfl, ?_, ?_, ?_⟩ <;>
      simp only [ensure_asset_slots, discard_selling_buying, hdisc]


/-- Payment carrying a malformed asset. -/
def c10PayOp : Operation := ⟨none, .payment (sampleAcct 9) (.invalid 99) 100⟩

/-- Failed transaction around `c10PayOp`. -/
def c10PayTx : LedgerTransaction :=
  { index := 1
    envelope := { sourceAccount := sampleAcct 1, operations := [c10PayOp] }
    result := { successful := false, opResults := some [sampleRes] } }

/-- Strict-receive carrying the same malformed asset as destination asset. -/
def c10RecvOp : Operation :=
  ⟨none, .pathPaymentStrictReceive .native 10 (sampleAcct 9) (.invalid 99) 20 []⟩

/-- Failed transaction around `c10RecvOp`. -/
def c10RecvTx : LedgerTransaction :=
  { index := 1
    envelope := { sourceAccount := sampleAcct 1, operations := [c10RecvOp] }
    result := { successful := false, opResults := some [sampleRes] } }

/-- Witness for C10: the same malformed asset aborts the payment arm but
leaves the strict-receive arm successful with zeroed asset fields. -/
theorem C10_asset_error_handling_witness :
    extractOperationDetails c10PayOp c10PayTx 0 =
      .error (.assetExtract "unknown asset type: 99") ∧
    (∃ d, extractOperationDetails c10RecvOp c10RecvTx 0 = .ok d ∧
      d.AssetType = "" ∧ d.AssetCode = "" ∧ d.AssetIssuer = "") :=
  ⟨(C10_asset_error_handling (.invalid 99) "unknown asset type: 99" rfl).2.1
      none (sampleAcct 9) 100 c10PayTx 0 "G1" "G9" [sampleRes] sampleRes rfl rfl rfl rfl,
   (C10_asset_error_handling (.invalid 99) "unknown asset type: 99" rfl).2.2.1
      none .native 10 (sampleAcct 9) 20 [] c10RecvTx 0 "G1" "G9" [sampleRes] sampleRes
      rfl rfl rfl rfl rfl⟩

end StellarEtl
